import Mathlib

/-!
# mglcraft: input dispatch, skill gating and camera smoothing

A shallow embedding of `source/game/state.h`, `source/game/controls.h` and the save and
load methods of `source/game.cpp`.

* `float` values are rationals and the vector arithmetic is taken without rounding;
  the products of `update_energy_regen` are rounded `float` products (`float32`).
* `uint16_t` cursor and window values are naturals; the C++ integer promotions make
  `c.first - (w / 2)` a signed `int`, which is an `Int` here.
* The collaborators whose classes are not part of the sources (`skills`, `player`,
  `world`, `ui_overlay`, `sound`, `character`, `min::window`, `min::camera`) are records
  of the flags the handlers read, and every call made on them is appended to a
  chronological call trace.
-/

namespace game

/-! ## Vectors, rays and the camera of the graphics library -/

/-- The three components of a `min::vec3<float>`. -/
structure vec3 where
  x : ℚ
  y : ℚ
  z : ℚ
deriving DecidableEq, Repr

/-- Component-wise sum, `operator+` of `min::vec3`. -/
def vec3.add (a b : vec3) : vec3 := ⟨a.x + b.x, a.y + b.y, a.z + b.z⟩

/-- Component-wise difference, `operator-` of `min::vec3`. -/
def vec3.sub (a b : vec3) : vec3 := ⟨a.x - b.x, a.y - b.y, a.z - b.z⟩

/-- Scaling by a constant, `operator*` of `min::vec3`. -/
def vec3.scale (a : vec3) (k : ℚ) : vec3 := ⟨a.x * k, a.y * k, a.z * k⟩

/-- Dot product of two vectors. -/
def vec3.dot (a b : vec3) : ℚ := a.x * b.x + a.y * b.y + a.z * b.z

/-- The global up direction, `min::vec3<float>::up()`. -/
def vec3.up : vec3 := ⟨0, 1, 0⟩

/-- A `min::ray` from an origin towards a destination point. -/
structure ray where
  origin : vec3
  dest : vec3
deriving DecidableEq, Repr

/-- A `min::quat<float>`. -/
structure quat where
  w : ℚ
  x : ℚ
  y : ℚ
  z : ℚ
deriving DecidableEq, Repr

/-- A `min::mat4<float>` built from a translation and a rotation. -/
structure mat4 where
  offset : vec3
  rotation : quat
deriving DecidableEq, Repr

/-- The `min::camera<float>`: where it stands, where it looks, and the cached
forward, up and right directions that `force_update` recalculates. -/
structure camera where
  position : vec3
  look_at : vec3
  forward : vec3
  up : vec3
  right : vec3
deriving DecidableEq, Repr

/-- The numeric kernels of the graphics library that the game calls but does not
define: they are parameters of the embedding. -/
structure min_lib where
  /-- The forward, up and right directions recalculated by `camera::force_update`. -/
  frame : vec3 → vec3 → vec3 × vec3 × vec3
  /-- The look-at point after `camera::move_look_at(x, y)`. -/
  move_look_at : ℚ → ℚ → camera → vec3
  /-- The point at a distance ahead of the camera, `camera::project_point`. -/
  project_point : camera → ℚ → vec3
  /-- Normalisation of a vector, `vec3::normalize`. -/
  normalize : vec3 → vec3
  /-- The shortest-arc rotation constructor `quat(from, to, axis)`. -/
  quat_arc : vec3 → vec3 → vec3 → quat
  /-- Product of two quaternions. -/
  quat_mul : quat → quat → quat

/-- The call `camera::set(p, look)`. -/
def camera.set (p look : vec3) (c : camera) : camera :=
  { c with position := p, look_at := look }

/-- The call `camera::set_position(p)`. -/
def camera.set_position (p : vec3) (c : camera) : camera :=
  { c with position := p }

/-- The call `camera::force_update()`: the cached directions are recalculated from
the position and the look-at point. -/
def camera.force_update (lib : min_lib) (c : camera) : camera :=
  let fr := lib.frame c.position c.look_at
  { c with forward := fr.1, up := fr.2.1, right := fr.2.2 }

/-- The call `camera::move_look_at(x, y)`. -/
def camera.do_move_look_at (lib : min_lib) (x y : ℚ) (c : camera) : camera :=
  { c with look_at := lib.move_look_at x y c }

/-! ## `state.h` -/

/-- The constant `state::_frame_average`. -/
def _frame_average : Nat := 4

/-- The data members of `game::state` (the `load_state` member is left out). -/
structure state where
  _camera : camera
  _q : quat
  _model : mat4
  _x : List ℚ
  _y : List ℚ
  _frame_count : Nat
  _target : vec3
  _dead : Bool
  _fix_target : Bool
  _pause : Bool
  _respawn : Bool
  _user_input : Bool
deriving DecidableEq, Repr

/-- The private `state::update_model_matrix`. -/
def state.update_model_matrix (s : state) : state :=
  let f := s._camera.forward
  let fup := s._camera.up
  let fr := s._camera.right
  let offset := s._camera.position.add (((f.sub fup).add fr).scale (1 / 2))
  { s with _model := ⟨offset, s._q⟩ }

/-- The private `state::update_model_rotation`. -/
def state.update_model_rotation (lib : min_lib) (s : state) : quat :=
  let f := s._camera.forward
  let fup := s._camera.up
  let fr := s._camera.right
  let d := lib.normalize ⟨f.x, 0, f.z⟩
  let y : vec3 := ⟨0, 1, 0⟩
  let x : vec3 := ⟨-1, 0, 0⟩
  let roty := lib.quat_arc x d y
  let rotzx := lib.quat_arc y fup fr
  lib.quat_mul rotzx roty

/-- The method `state::abort_tracking`. -/
def state.abort_tracking (s : state) : state :=
  { s with _fix_target := false }

/-- The method `state::set_camera`. -/
def state.set_camera (lib : min_lib) (p look : vec3) (s : state) : state :=
  let s1 := { s with _camera := (s._camera.set (p.add ⟨0, 1 / 2, 0⟩) look).force_update lib }
  { s1 with _q := s1.update_model_rotation lib }

/-- The constructor of `state`: zeroed smoothing buffers and frame count, every flag
false, and the camera loaded at the spawn point. -/
def state.init (lib : min_lib) (cam : camera) (spawn look : vec3) : state :=
  state.set_camera lib spawn look
    { _camera := cam, _q := ⟨1, 0, 0, 0⟩, _model := ⟨⟨0, 0, 0⟩, ⟨1, 0, 0, 0⟩⟩,
      _x := List.replicate _frame_average 0, _y := List.replicate _frame_average 0,
      _frame_count := 0, _target := ⟨0, 0, 0⟩,
      _dead := false, _fix_target := false, _pause := false, _respawn := false,
      _user_input := false }

/-- The method `state::set_dead`. -/
def state.set_dead (flag : Bool) (s : state) : state := { s with _dead := flag }

/-- The method `state::set_pause`. -/
def state.set_pause (mode : Bool) (s : state) : state := { s with _pause := mode }

/-- The method `state::set_respawn`. -/
def state.set_respawn (flag : Bool) (s : state) : state := { s with _respawn := flag }

/-- The method `state::set_user_input`. -/
def state.set_user_input (mode : Bool) (s : state) : state := { s with _user_input := mode }

/-- The method `state::track_target`. -/
def state.track_target (target : vec3) (s : state) : state :=
  { s with _target := target, _fix_target := true }

/-- The method `state::toggle_pause`: the new flag and the state. -/
def state.toggle_pause (s : state) : Bool × state :=
  (!s._pause, { s with _pause := !s._pause })

/-- The method `state::toggle_user_input`: the new flag and the state. -/
def state.toggle_user_input (s : state) : Bool × state :=
  (!s._user_input, { s with _user_input := !s._user_input })

/-- The cursor sample of one frame, `sensitivity * (c - (w / 2))` with
`sensitivity = 0.25`: the halving is the unsigned integer division and the
difference is taken in `int`. -/
def state.sample (c w : Nat) : ℚ := (1 / 4 : ℚ) * (((c : Int) - ((w / 2 : Nat) : Int) : Int) : ℚ)

/-- The first half of the non-tracking branch of `state::update`: the frame index is
`(_frame_count %= _frame_average)++` and the two samples are stored at that index. -/
def state.store_sample (s : state) (c : Nat × Nat) (w h : Nat) : state :=
  let frame_index := s._frame_count % _frame_average
  { s with _frame_count := frame_index + 1,
           _x := s._x.set frame_index (state.sample c.1 w),
           _y := s._y.set frame_index (state.sample c.2 h) }

/-- The averaging loop of `state::update` over one buffer: the sum of the
`_frame_average` entries, divided by `_frame_average`. -/
def state.average (buf : List ℚ) : ℚ :=
  ((List.range _frame_average).foldl (fun acc i => acc + buf.getD i 0) 0) / (_frame_average : ℚ)

/-- The pitch limit of `state::update`: the pair handed to `camera::move_look_at`
for the averaged offsets `x`, `y` and the dot product `dy` of forward and up. -/
def state.limit_pitch (dy x y : ℚ) : ℚ × ℚ :=
  if dy > 975 / 1000 ∧ y < 0 then (x, 0)
  else if dy < -(975 / 1000) ∧ y > 0 then (x, 0)
  else (x, y)

/-- The second half of the non-tracking branch of `state::update`: when the averaged
offsets moved at all, the camera look-at is moved by the pitch-limited offsets. -/
def state.look (lib : min_lib) (s : state) : state :=
  let x := state.average s._x
  let y := state.average s._y
  if |x| > 1 / 1000 ∨ |y| > 1 / 1000 then
    let dy := s._camera.forward.dot vec3.up
    let xy := state.limit_pitch dy x y
    let s1 := { s with _camera := (s._camera.do_move_look_at lib xy.1 xy.2).force_update lib }
    { s1 with _q := s1.update_model_rotation lib }
  else s

/-- The method `state::update(p, c, w, h)`. -/
def state.update (lib : min_lib) (s : state) (p : vec3) (c : Nat × Nat) (w h : Nat) : state :=
  let move := p.add ⟨0, 1 / 2, 0⟩
  let s2 :=
    if s._fix_target then
      let s1 := { s with _camera := (s._camera.set move s._target).force_update lib }
      { s1 with _q := s1.update_model_rotation lib }
    else
      let s1 := { s with _camera := s._camera.set_position move }
      (s1.store_sample c w h).look lib
  s2.update_model_matrix

/-- The arguments of one call of `state::update`. -/
structure frame where
  p : vec3
  c : Nat × Nat
  w : Nat
  h : Nat
deriving DecidableEq, Repr

/-- The state after `state::update` has run once per frame, oldest frame first. -/
def state.updates (lib : min_lib) (s : state) (fs : List frame) : state :=
  fs.foldl (fun s f => s.update lib f.p f.c f.w f.h) s

/-- The averaged offsets `(x, y)` that a non-tracking `state::update` computes for a
frame, before the pitch limit: the samples are stored, then both buffers averaged. -/
def state.offsets (s : state) (f : frame) : ℚ × ℚ :=
  (state.average (s.store_sample f.c f.w f.h)._x,
   state.average (s.store_sample f.c f.w f.h)._y)

/-- The horizontal sample of a frame. -/
def frame.sx (f : frame) : ℚ := state.sample f.c.1 f.w

/-- The vertical sample of a frame. -/
def frame.sy (f : frame) : ℚ := state.sample f.c.2 f.h

/-- The mean of the four newest entries of a history of samples (newest first);
entries from before the first frame count as 0. -/
def mean_of_last_four (hist : List ℚ) : ℚ :=
  (hist.getD 0 0 + hist.getD 1 0 + hist.getD 2 0 + hist.getD 3 0) / 4

/-- A ring buffer of four entries whose next write goes to index `k` holds the four
newest samples `a`, `b`, `c`, `d` (newest first). -/
def ring_holds (buf : List ℚ) (k : Nat) (a b c d : ℚ) : Prop :=
  (k = 0 ∧ buf = [d, c, b, a]) ∨ (k = 1 ∧ buf = [a, d, c, b]) ∨
  (k = 2 ∧ buf = [b, a, d, c]) ∨ (k = 3 ∧ buf = [c, b, a, d])

/-- The state reached from a fresh state by non-tracking updates keeps, in both ring
buffers, the four newest samples of its history. -/
def state.holds_history (s : state) (hx hy : List ℚ) : Prop :=
  s._fix_target = false ∧
  ring_holds s._x (s._frame_count % 4) (hx.getD 0 0) (hx.getD 1 0) (hx.getD 2 0) (hx.getD 3 0) ∧
  ring_holds s._y (s._frame_count % 4) (hy.getD 0 0) (hy.getD 1 0) (hy.getD 2 0) (hy.getD 3 0)

/-! ## Rounded `float` arithmetic -/

/-- A value of the C++ type `float` (IEEE 754 binary32): a finite value, an infinity
with its sign, or a NaN. The two zeros are not told apart. -/
inductive float32 where
  | finite (value : ℚ)
  | infinite (negative : Bool)
  | nan
deriving DecidableEq, Repr

/-- The binary exponent used to round a positive magnitude: the largest `e` with
`2 ^ e ≤ a`, and at least -126 (below that the floats are subnormal). -/
def float32.exponent (a : ℚ) : ℤ := max (Int.log 2 a) (-126)

/-- Rounding to the nearest integer, a tie going to the even one. -/
def float32.nearest_even (x : ℚ) : ℤ :=
  if x - ⌊x⌋ < 1 / 2 then ⌊x⌋
  else if x - ⌊x⌋ > 1 / 2 then ⌊x⌋ + 1
  else if ⌊x⌋ % 2 = 0 then ⌊x⌋
  else ⌊x⌋ + 1

/-- The `float` nearest to a rational (round to nearest, ties to even, 24 significant
bits): the result of a float operation whose exact result is `q`. A magnitude that
rounds to `2 ^ 128` or more is an infinity. -/
def float32.round (q : ℚ) : float32 :=
  if q = 0 then .finite 0
  else
    let a := |q|
    let u : ℚ := 2 ^ (float32.exponent a - 23)
    let m : ℚ := (float32.nearest_even (a / u) : ℚ) * u
    if m ≥ 2 ^ 128 then .infinite (decide (q < 0))
    else .finite (if q < 0 then -m else m)

/-- The product of two `float` values, `operator*` on `float`. -/
def float32.mul : float32 → float32 → float32
  | .nan, _ => .nan
  | _, .nan => .nan
  | .infinite s, .infinite t => .infinite (s != t)
  | .infinite s, .finite b => if b = 0 then .nan else .infinite (s != decide (b < 0))
  | .finite a, .infinite t => if a = 0 then .nan else .infinite (decide (a < 0) != t)
  | .finite a, .finite b => float32.round (a * b)

/-! ## The collaborators of `controls.h` -/

/-- The strings that end up in the console: the five mode strings held by `skills`
and the scan description of a block id. -/
inductive console_string where
  | beam
  | missile
  | grapple
  | jet
  | scan
  | scan_desc (block_id : Int)
deriving DecidableEq, Repr

/-- Every call the handlers make on a collaborator, with its arguments. -/
inductive Call where
  | ui_enable_console
  | ui_set_console_string (s : console_string)
  | ui_set_key_down (index : Nat)
  | ui_set_key_down_fail (index : Nat)
  | ui_set_key_up (index : Nat)
  | ui_toggle_debug_text
  | ui_set_draw_menu (flag : Bool)
  | ui_set_screen (width height : Nat)
  | ui_set_health (percent : ℚ)
  | ui_set_energy (percent : ℚ)
  | ui_set_target_cursor
  | ui_set_reload_cursor
  | sound_play_click
  | sound_play_charge
  | sound_play_grapple
  | sound_play_jet
  | sound_play_shot
  | sound_play_miss_ex (point : vec3)
  | sound_stop_charge
  | sound_stop_grapple
  | sound_stop_jet
  | sound_bg_gain_down
  | sound_bg_gain_up
  | character_set_animation_grapple (point : vec3)
  | character_set_animation_shoot
  | character_set_animation_charge
  | character_abort_animation_shoot
  | character_abort_animation_grapple
  | skill_set_gun_active (flag : Bool)
  | skill_set_beam_mode
  | skill_set_missile_mode
  | skill_set_grapple_mode
  | skill_set_jetpack_mode
  | skill_set_scan_mode
  | skill_start_charge
  | skill_start_cooldown
  | skill_lock
  | skill_consume (energy : ℚ)
  | skill_will_consume (energy : ℚ)
  | skill_add_energy (energy : float32)
  | skill_unlock_beam
  | skill_unlock_grapple
  | skill_unlock_missile
  | skill_unlock_jetpack
  | skill_unlock_scan
  | player_move (direction : vec3)
  | player_jump
  | player_set_jet (flag : Bool)
  | player_hook_abort
  | player_add_health (health : float32)
  | world_toggle_edit_mode
  | world_reset_scale
  | world_set_atlas_id (index : Nat)
  | world_set_scale_x (dx : Nat)
  | world_set_scale_y (dy : Nat)
  | world_set_scale_z (dz : Nat)
  | world_hook_set (r : ray)
  | world_target_block (r : ray)
  | world_add_block (r : ray)
  | world_explode_block_radius (r : ray) (radius : Nat × Nat × Nat)
  | world_explode_block (r : ray) (size : ℚ)
  | world_launch_missile (r : ray)
  | world_scan_block (r : ray)
  | state_set_respawn (flag : Bool)
  | state_track_target (target : vec3)
  | state_abort_tracking
  | state_toggle_game_pause
  | state_set_game_mode (caption : String)
  | window_set_shutdown
  | window_display_cursor (flag : Bool)
  | window_set_cursor (x y : Nat)
  | camera_set_aspect_ratio (width height : Nat)
deriving Repr

/-- What the handlers read from the `skills` of the player. The lock flag, the
gun-active flag and the five mode flags are changed by the setters named after them;
the other fields are the answers `skills` gives when it is asked during the call
(cooldown and charge depend on the clock, the energy checks on the energy budget). -/
structure skills where
  is_locked : Bool
  is_gun_active : Bool
  is_beam_mode : Bool
  is_missile_mode : Bool
  is_grapple_mode : Bool
  is_jetpack_mode : Bool
  is_scan_mode : Bool
  is_off_cooldown : Bool
  is_beam_charged : Bool
  can_consume : ℚ → Bool
  will_consume : ℚ → Bool
  activate_charge : Bool
  check_cooldown : Bool
  get_energy_percent : ℚ

/-- What the handlers read from the `player`: the dead flag, the jet flag, and the
health percentage the player reports when asked. -/
structure player where
  is_dead : Bool
  is_jet : Bool
  get_health_percent : ℚ

/-- What the handlers read from the `world`: the edit-mode flag and the answers of
the ray queries (`explode_block` returns an `int8_t`, negative when nothing was hit). -/
structure world where
  get_edit_mode : Bool
  hook_set : ray → Option vec3
  target_block : ray → Option vec3
  explode_block_radius : ray → Nat × Nat × Nat → Int
  explode_block : ray → ℚ → Int
  launch_missile : ray → Bool
  scan_block : ray → Int

/-- The keys of `min::window::key_code` that the game names, and any other key. -/
inductive key_code where
  | F1 | F2 | F3 | F4 | ESCAPE
  | KEYQ | KEYW | KEYS | KEYA | KEYD | KEYE | KEYZ | KEYX | KEYC
  | KEY1 | KEY2 | KEY3 | KEY4 | KEY5 | KEY6 | KEY7 | KEY8
  | SPACE
  | other (code : Nat)
deriving DecidableEq, Repr

/-- The static callbacks of `controls`. -/
inductive handler where
  | close_window | toggle_text | music_down | music_up | toggle_pause | toggle_edit_mode
  | forward | left | right | back
  | key1_down | key2_down | key3_down | key4_down | key5_down | key6_down | key7_down
  | key8_down
  | key1_up | key2_up | key3_up | key4_up | key5_up | key6_up | key7_up | key8_up
  | add_x | add_y | add_z | reset
  | left_click_down | left_click_up | right_click_down | right_click_up
  | jump | on_resize
deriving DecidableEq, Repr

/-- The object a callback is registered with (its `void *` data). -/
inductive callback_data where
  | window | ui | sound | world | controls
deriving DecidableEq, Repr

/-- One registration of a keyboard callback. -/
structure binding where
  key : key_code
  callback : handler
  data : callback_data
deriving DecidableEq, Repr

/-- The `min::keyboard`: the watched keys and the registered callbacks. -/
structure keyboard where
  keys : List key_code
  keydown : List binding
  keydown_per_frame : List binding
  keyup : List binding
deriving DecidableEq, Repr

/-- The `min::window`: its keyboard, its callback data, the mouse and resize
callbacks, its size and its cursor. -/
structure window where
  keyboard : keyboard
  data : Option callback_data
  lclick_down : Option handler
  lclick_up : Option handler
  rclick_down : Option handler
  rclick_up : Option handler
  update : Option handler
  width : Nat
  height : Nat
  cursor : Nat × Nat
  cursor_displayed : Bool
  shutdown : Bool
deriving DecidableEq, Repr

/-- Everything the `controls` object points to, and the trace of the calls made on
the collaborators so far (oldest first). -/
structure Game where
  window : window
  camera : camera
  state : state
  skill : skills
  play : player
  world : world
  console : Option console_string
  draw_menu : Bool
  game_mode : String
  calls : List Call

/-- Record one collaborator call at the end of the trace. -/
def Game.call (c : Call) (g : Game) : Game := { g with calls := g.calls ++ [c] }

/-! ### Calls on the collaborators

A setter named after a flag changes that flag; every call is recorded in the trace. -/

/-- The call `ui->set_console_string(s)`. -/
def ui_set_console_string (s : console_string) (g : Game) : Game :=
  { g.call (.ui_set_console_string s) with console := some s }

/-- The call `ui->set_draw_menu(flag)`. -/
def ui_set_draw_menu (flag : Bool) (g : Game) : Game :=
  { g.call (.ui_set_draw_menu flag) with draw_menu := flag }

/-- The call `skill.set_gun_active(flag)`. -/
def skill_set_gun_active (flag : Bool) (g : Game) : Game :=
  { g.call (.skill_set_gun_active flag) with skill := { g.skill with is_gun_active := flag } }

/-- Make exactly the given mode flags current. -/
def skills.set_modes (beam missile grapple jetpack scan : Bool) (s : skills) : skills :=
  { s with is_beam_mode := beam, is_missile_mode := missile, is_grapple_mode := grapple,
           is_jetpack_mode := jetpack, is_scan_mode := scan }

/-- Modelled from the spec: `skills::set_beam_mode` is not among the sources; the modes
are mutually exclusive, so selecting beam makes beam the one current mode. -/
def skill_set_beam_mode (g : Game) : Game :=
  { g.call .skill_set_beam_mode with skill := g.skill.set_modes true false false false false }

/-- Modelled from the spec: `skills::set_missile_mode` is not among the sources; the
modes are mutually exclusive, so selecting missile makes missile the one current mode. -/
def skill_set_missile_mode (g : Game) : Game :=
  { g.call .skill_set_missile_mode with skill := g.skill.set_modes false true false false false }

/-- Modelled from the spec: `skills::set_grapple_mode` is not among the sources; the
modes are mutually exclusive, so selecting grapple makes grapple the one current mode. -/
def skill_set_grapple_mode (g : Game) : Game :=
  { g.call .skill_set_grapple_mode with skill := g.skill.set_modes false false true false false }

/-- Modelled from the spec: `skills::set_jetpack_mode` is not among the sources; the
modes are mutually exclusive, so selecting jetpack makes jetpack the one current mode. -/
def skill_set_jetpack_mode (g : Game) : Game :=
  { g.call .skill_set_jetpack_mode with skill := g.skill.set_modes false false false true false }

/-- Modelled from the spec: `skills::set_scan_mode` is not among the sources; the modes
are mutually exclusive, so selecting scan makes scan the one current mode. -/
def skill_set_scan_mode (g : Game) : Game :=
  { g.call .skill_set_scan_mode with skill := g.skill.set_modes false false false false true }

/-- Modelled from the spec: `skills::lock` is not among the sources; it locks the skill. -/
def skill_lock (g : Game) : Game :=
  { g.call .skill_lock with skill := { g.skill with is_locked := true } }

/-- Modelled from the spec: the five `skills::unlock_*` methods are not among the
sources; each releases the lock. -/
def skill_unlock (c : Call) (g : Game) : Game :=
  { g.call c with skill := { g.skill with is_locked := false } }

/-- The call `skill.will_consume(energy)`: its answer, and the call recorded. -/
def skill_will_consume (energy : ℚ) (g : Game) : Bool × Game :=
  (g.skill.will_consume energy, g.call (.skill_will_consume energy))

/-- The call `player.set_jet(flag)`. -/
def player_set_jet (flag : Bool) (g : Game) : Game :=
  { g.call (.player_set_jet flag) with play := { g.play with is_jet := flag } }

/-- Modelled from the spec: `world::toggle_edit_mode` is not among the sources; edit
mode is a toggle, so the flag is negated and the new flag is returned. -/
def world_toggle_edit_mode (g : Game) : Bool × Game :=
  (!g.world.get_edit_mode,
   { g.call .world_toggle_edit_mode with
     world := { g.world with get_edit_mode := !g.world.get_edit_mode } })

/-- The call `world->hook_set(r, point)`: the hit point if the hook hit. -/
def world_hook_set (r : ray) (g : Game) : Option vec3 × Game :=
  (g.world.hook_set r, g.call (.world_hook_set r))

/-- The call `world->target_block(r, target)`: the target if a block was hit. -/
def world_target_block (r : ray) (g : Game) : Option vec3 × Game :=
  (g.world.target_block r, g.call (.world_target_block r))

/-- The call `world->explode_block(r, radius, callback)`. -/
def world_explode_block_radius (r : ray) (radius : Nat × Nat × Nat) (g : Game) : Int × Game :=
  (g.world.explode_block_radius r radius, g.call (.world_explode_block_radius r radius))

/-- The call `world->explode_block(r, nullptr, size)`. -/
def world_explode_block (r : ray) (size : ℚ) (g : Game) : Int × Game :=
  (g.world.explode_block r size, g.call (.world_explode_block r size))

/-- The call `world->launch_missile(r)`. -/
def world_launch_missile (r : ray) (g : Game) : Bool × Game :=
  (g.world.launch_missile r, g.call (.world_launch_missile r))

/-- The call `world->scan_block(r)`. -/
def world_scan_block (r : ray) (g : Game) : Int × Game :=
  (g.world.scan_block r, g.call (.world_scan_block r))

/-- The call `state->set_respawn(flag)`. -/
def state_set_respawn (flag : Bool) (g : Game) : Game :=
  { g.call (.state_set_respawn flag) with state := g.state.set_respawn flag }

/-- The call `state->track_target(target)`. -/
def state_track_target (target : vec3) (g : Game) : Game :=
  { g.call (.state_track_target target) with state := g.state.track_target target }

/-- The call `state->abort_tracking()`. -/
def state_abort_tracking (g : Game) : Game :=
  { g.call .state_abort_tracking with state := g.state.abort_tracking }

/-- The call `win->display_cursor(flag)`. -/
def window_display_cursor (flag : Bool) (g : Game) : Game :=
  { g.call (.window_display_cursor flag) with window := { g.window with cursor_displayed := flag } }

/-- The call `win->set_cursor(x, y)`. -/
def window_set_cursor (x y : Nat) (g : Game) : Game :=
  { g.call (.window_set_cursor x y) with window := { g.window with cursor := (x, y) } }

/-- The call `win->set_shutdown()`. -/
def window_set_shutdown (g : Game) : Game :=
  { g.call .window_set_shutdown with window := { g.window with shutdown := true } }

/-- The call `skill.unlock_beam()`. -/
def skill_unlock_beam (g : Game) : Game := skill_unlock .skill_unlock_beam g

/-- The call `skill.unlock_grapple()`. -/
def skill_unlock_grapple (g : Game) : Game := skill_unlock .skill_unlock_grapple g

/-- The call `skill.unlock_missile()`. -/
def skill_unlock_missile (g : Game) : Game := skill_unlock .skill_unlock_missile g

/-- The call `skill.unlock_jetpack()`. -/
def skill_unlock_jetpack (g : Game) : Game := skill_unlock .skill_unlock_jetpack g

/-- The call `skill.unlock_scan()`. -/
def skill_unlock_scan (g : Game) : Game := skill_unlock .skill_unlock_scan g

/-- The call `keyboard.clear()`: no key is watched and no callback is registered. -/
def keyboard.clear (_k : keyboard) : keyboard := ⟨[], [], [], []⟩

/-- The call `keyboard.add(key)`. -/
def keyboard.add (key : key_code) (k : keyboard) : keyboard :=
  { k with keys := k.keys ++ [key] }

/-- The call `keyboard.register_keydown(key, callback, data)`. -/
def keyboard.register_keydown (key : key_code) (f : handler) (d : callback_data)
    (k : keyboard) : keyboard :=
  { k with keydown := k.keydown ++ [⟨key, f, d⟩] }

/-- The call `keyboard.register_keydown_per_frame(key, callback, data)`. -/
def keyboard.register_keydown_per_frame (key : key_code) (f : handler) (d : callback_data)
    (k : keyboard) : keyboard :=
  { k with keydown_per_frame := k.keydown_per_frame ++ [⟨key, f, d⟩] }

/-- The call `keyboard.register_keyup(key, callback, data)`. -/
def keyboard.register_keyup (key : key_code) (f : handler) (d : callback_data)
    (k : keyboard) : keyboard :=
  { k with keyup := k.keyup ++ [⟨key, f, d⟩] }

/-! ## `controls.h` -/

namespace controls

/-- The constant `controls::_block_cost`. -/
def _block_cost : ℚ := 10

/-- The constant `controls::_beam_cost`. -/
def _beam_cost : ℚ := 10

/-- The constant `controls::_beam_charge_cost`. -/
def _beam_charge_cost : ℚ := 20

/-- The constant `controls::_missile_cost`. -/
def _missile_cost : ℚ := 20

/-- The constant `controls::_grapple_cost`. -/
def _grapple_cost : ℚ := 10

/-- The constant `controls::_health_regen`. -/
def _health_regen : ℚ := 5

/-- The constant `controls::_energy_regen`. -/
def _energy_regen : ℚ := 10

/-- The constant `controls::_project_dist`. -/
def _project_dist : ℚ := 3

/-- The keyboard part of `controls::register_control_callbacks`, in source order:
clear, the watched keys, then the callbacks. -/
def register_keyboard (k : keyboard) : keyboard :=
  let k := k.clear
  let k := k.add .F1
  let k := k.add .F2
  let k := k.add .F3
  let k := k.add .F4
  let k := k.add .ESCAPE
  let k := k.add .KEYQ
  let k := k.add .KEYW
  let k := k.add .KEYS
  let k := k.add .KEYA
  let k := k.add .KEYD
  let k := k.add .KEYE
  let k := k.add .KEYZ
  let k := k.add .KEYX
  let k := k.add .KEYC
  let k := k.add .KEY1
  let k := k.add .KEY2
  let k := k.add .KEY3
  let k := k.add .KEY4
  let k := k.add .KEY5
  let k := k.add .KEY6
  let k := k.add .KEY7
  let k := k.add .KEY8
  let k := k.add .SPACE
  let k := k.register_keydown .F1 .close_window .window
  let k := k.register_keydown .F2 .toggle_text .ui
  let k := k.register_keydown .F3 .music_down .sound
  let k := k.register_keydown .F4 .music_up .sound
  let k := k.register_keydown .ESCAPE .toggle_pause .controls
  let k := k.register_keydown .KEYQ .toggle_edit_mode .controls
  let k := k.register_keydown_per_frame .KEYW .forward .controls
  let k := k.register_keydown_per_frame .KEYS .back .controls
  let k := k.register_keydown_per_frame .KEYA .left .controls
  let k := k.register_keydown_per_frame .KEYD .right .controls
  let k := k.register_keydown .KEYE .reset .controls
  let k := k.register_keydown .KEYZ .add_x .world
  let k := k.register_keydown .KEYX .add_y .world
  let k := k.register_keydown .KEYC .add_z .world
  let k := k.register_keydown .KEY1 .key1_down .controls
  let k := k.register_keyup .KEY1 .key1_up .controls
  let k := k.register_keydown .KEY2 .key2_down .controls
  let k := k.register_keyup .KEY2 .key2_up .controls
  let k := k.register_keydown .KEY3 .key3_down .controls
  let k := k.register_keyup .KEY3 .key3_up .controls
  let k := k.register_keydown .KEY4 .key4_down .controls
  let k := k.register_keyup .KEY4 .key4_up .controls
  let k := k.register_keydown .KEY5 .key5_down .controls
  let k := k.register_keyup .KEY5 .key5_up .controls
  let k := k.register_keydown .KEY6 .key6_down .controls
  let k := k.register_keyup .KEY6 .key6_up .controls
  let k := k.register_keydown .KEY7 .key7_down .controls
  let k := k.register_keyup .KEY7 .key7_up .controls
  let k := k.register_keydown .KEY8 .key8_down .controls
  let k := k.register_keyup .KEY8 .key8_up .controls
  k.register_keydown .SPACE .jump .world

/-- The method `controls::register_control_callbacks`: the console is enabled and
shows the beam string, the keyboard is cleared, the controls object becomes the
callback data of the window, the mouse and resize callbacks are registered, and the
keyboard is set up. -/
def register_control_callbacks (g : Game) : Game :=
  let g := g.call .ui_enable_console
  let g := ui_set_console_string .beam g
  { g with window :=
      { g.window with
        keyboard := register_keyboard g.window.keyboard,
        data := some .controls,
        lclick_down := some .left_click_down,
        lclick_up := some .left_click_up,
        rclick_down := some .right_click_down,
        rclick_up := some .right_click_up,
        update := some .on_resize } }

/-- The callback `controls::close_window`. -/
def close_window (g : Game) : Game := window_set_shutdown g

/-- The callback `controls::toggle_text`. -/
def toggle_text (g : Game) : Game := g.call .ui_toggle_debug_text

/-- The callback `controls::music_down`. -/
def music_down (g : Game) : Game := g.call .sound_bg_gain_down

/-- The callback `controls::music_up`. -/
def music_up (g : Game) : Game := g.call .sound_bg_gain_up

/-- The callback `controls::toggle_edit_mode`. -/
def toggle_edit_mode (g : Game) : Game :=
  let r := world_toggle_edit_mode g
  let mode := r.1
  let g := skill_set_gun_active (!mode) r.2
  g.call .world_reset_scale

/-- The callback `controls::forward`. -/
def forward (g : Game) : Game := g.call (.player_move g.camera.forward)

/-- The callback `controls::left`. -/
def left (g : Game) : Game := g.call (.player_move (g.camera.right.scale (-1)))

/-- The callback `controls::right`. -/
def right (g : Game) : Game := g.call (.player_move g.camera.right)

/-- The callback `controls::back`. -/
def back (g : Game) : Game := g.call (.player_move (g.camera.forward.scale (-1)))

/-- The method `controls::key_down(index, f)`; an empty `std::function` is `none`. -/
def key_down (index : Nat) (f : Option (Game → Game)) (g : Game) : Game :=
  if !g.skill.is_locked && g.skill.is_gun_active then
    let g := g.call (.ui_set_key_down index)
    let g := g.call .sound_play_click
    match f with
    | some act => act g
    | none => g
  else if g.world.get_edit_mode then
    g.call (.world_set_atlas_id index)
  else
    g.call (.ui_set_key_down_fail index)

/-- The action built by `key1_down`. -/
def key1_action (g : Game) : Game := skill_set_beam_mode (ui_set_console_string .beam g)

/-- The action built by `key2_down`. -/
def key2_action (g : Game) : Game := skill_set_missile_mode (ui_set_console_string .missile g)

/-- The action built by `key3_down`. -/
def key3_action (g : Game) : Game := skill_set_grapple_mode (ui_set_console_string .grapple g)

/-- The action built by `key4_down`. -/
def key4_action (g : Game) : Game := skill_set_jetpack_mode (ui_set_console_string .jet g)

/-- The action built by `key5_down`. -/
def key5_action (g : Game) : Game := skill_set_scan_mode (ui_set_console_string .scan g)

/-- The callback `controls::key1_down`. -/
def key1_down (g : Game) : Game := key_down 0 (some key1_action) g

/-- The callback `controls::key2_down`. -/
def key2_down (g : Game) : Game := key_down 1 (some key2_action) g

/-- The callback `controls::key3_down`. -/
def key3_down (g : Game) : Game := key_down 2 (some key3_action) g

/-- The callback `controls::key4_down`. -/
def key4_down (g : Game) : Game := key_down 3 (some key4_action) g

/-- The callback `controls::key5_down`. -/
def key5_down (g : Game) : Game := key_down 4 (some key5_action) g

/-- The callback `controls::key6_down`. -/
def key6_down (g : Game) : Game := key_down 5 none g

/-- The callback `controls::key7_down`. -/
def key7_down (g : Game) : Game := key_down 6 none g

/-- The callback `controls::key8_down`. -/
def key8_down (g : Game) : Game := key_down 7 none g

/-- The callback `controls::key1_up`. -/
def key1_up (g : Game) : Game := g.call (.ui_set_key_up 0)

/-- The callback `controls::key2_up`. -/
def key2_up (g : Game) : Game := g.call (.ui_set_key_up 1)

/-- The callback `controls::key3_up`. -/
def key3_up (g : Game) : Game := g.call (.ui_set_key_up 2)

/-- The callback `controls::key4_up`. -/
def key4_up (g : Game) : Game := g.call (.ui_set_key_up 3)

/-- The callback `controls::key5_up`. -/
def key5_up (g : Game) : Game := g.call (.ui_set_key_up 4)

/-- The callback `controls::key6_up`. -/
def key6_up (g : Game) : Game := g.call (.ui_set_key_up 5)

/-- The callback `controls::key7_up`. -/
def key7_up (g : Game) : Game := g.call (.ui_set_key_up 6)

/-- The callback `controls::key8_up`. -/
def key8_up (g : Game) : Game := g.call (.ui_set_key_up 7)

/-- The callback `controls::add_x`. -/
def add_x (g : Game) : Game := g.call (.world_set_scale_x 1)

/-- The callback `controls::add_y`. -/
def add_y (g : Game) : Game := g.call (.world_set_scale_y 1)

/-- The callback `controls::add_z`. -/
def add_z (g : Game) : Game := g.call (.world_set_scale_z 1)

/-- The callback `controls::reset`. -/
def reset (g : Game) : Game := g.call .world_reset_scale

/-- The ray every mouse handler builds: from the camera position to the point
`_project_dist` ahead of the camera. -/
def camera_ray (lib : min_lib) (g : Game) : ray :=
  ⟨g.camera.position, lib.project_point g.camera _project_dist⟩

/-- The grapple block of `left_click_down`, entered once `can_consume(_grapple_cost)`
holds: the hook is fired along the camera ray and, on a hit, the energy is consumed,
the grapple animation and sound start and the skill is locked. -/
def fire_grapple (lib : min_lib) (g : Game) : Game :=
  let r := world_hook_set (camera_ray lib g) g
  match r.1 with
  | some point =>
    let g := r.2.call (.skill_consume _grapple_cost)
    let g := g.call (.character_set_animation_grapple point)
    let g := g.call .sound_play_grapple
    skill_lock g
  | none => r.2

/-- The callback `controls::left_click_down`. -/
def left_click_down (lib : min_lib) (g : Game) : Game :=
  if g.play.is_dead then
    state_set_respawn true g
  else if g.skill.is_gun_active then
    if g.skill.is_beam_mode && g.skill.is_off_cooldown then
      if g.skill.can_consume _beam_charge_cost then
        let g := g.call .sound_play_charge
        let g := g.call .skill_start_charge
        skill_lock g
      else g
    else if g.skill.is_grapple_mode then
      if g.skill.can_consume _grapple_cost then
        fire_grapple lib g
      else g
    else if g.skill.is_missile_mode && g.skill.is_off_cooldown then
      skill_lock g
    else if g.skill.is_jetpack_mode then
      let g := player_set_jet true g
      let g := g.call .sound_play_jet
      skill_lock g
    else if g.skill.is_scan_mode then
      skill_lock g
    else g
  else g

/-- The edit-mode block of `left_click_up`: a block is added along the camera ray
when `will_consume(_block_cost)` succeeds. -/
def place_block (lib : min_lib) (g : Game) : Game :=
  let c := skill_will_consume _block_cost g
  if c.1 then
    c.2.call (.world_add_block (camera_ray lib g))
  else c.2

/-- The `is_beam_charged` block of `left_click_up`. -/
def release_charged_beam (r : ray) (g : Game) : Game :=
  let v := world_explode_block_radius r (3, 3, 3) g
  let g :=
    if v.1 ≥ 0 then
      let g := v.2.call (.skill_consume _beam_charge_cost)
      let g := g.call .character_set_animation_shoot
      g.call .skill_start_cooldown
    else v.2
  let g := g.call .sound_stop_charge
  skill_unlock_beam g

/-- The `is_beam_mode` block of `left_click_up`. -/
def release_beam (r : ray) (g : Game) : Game :=
  let g :=
    if g.skill.can_consume _beam_cost then
      let v := world_explode_block r 20 g
      if v.1 ≥ 0 then
        let g := v.2.call (.skill_consume _beam_cost)
        let g := g.call .character_set_animation_shoot
        g.call .sound_play_shot
      else v.2
    else g
  let g := g.call .sound_stop_charge
  skill_unlock_beam g

/-- The `is_grapple_mode` block of `left_click_up`. -/
def release_grapple (g : Game) : Game :=
  let g := g.call .player_hook_abort
  let g := g.call .character_abort_animation_grapple
  let g := g.call .sound_stop_grapple
  skill_unlock_grapple g

/-- The `is_missile_mode` block of `left_click_up`. -/
def release_missile (r : ray) (g : Game) : Game :=
  let c := skill_will_consume _missile_cost g
  let g :=
    if c.1 then
      let l := world_launch_missile r c.2
      if l.1 then
        let g := l.2.call .character_set_animation_shoot
        g.call .skill_start_cooldown
      else l.2
    else c.2
  skill_unlock_missile g

/-- The `is_jetpack_mode` block of `left_click_up`. -/
def release_jetpack (g : Game) : Game :=
  let g := player_set_jet false g
  let g := g.call .sound_stop_jet
  skill_unlock_jetpack g

/-- The `is_scan_mode` block of `left_click_up`. -/
def release_scan (r : ray) (g : Game) : Game :=
  let b := world_scan_block r g
  let g := ui_set_console_string (.scan_desc b.1) b.2
  skill_unlock_scan g

/-- The `if (skill.is_locked())` block of `left_click_up`: the chain of mode tests. -/
def release (r : ray) (g : Game) : Game :=
  if g.skill.is_beam_charged then release_charged_beam r g
  else if g.skill.is_beam_mode then release_beam r g
  else if g.skill.is_grapple_mode then release_grapple g
  else if g.skill.is_missile_mode then release_missile r g
  else if g.skill.is_jetpack_mode then release_jetpack g
  else if g.skill.is_scan_mode then release_scan r g
  else g

/-- The callback `controls::left_click_up`; its blocks are the definitions above. -/
def left_click_up (lib : min_lib) (g : Game) : Game :=
  if g.play.is_dead && !g.skill.is_locked then
    g
  else if g.world.get_edit_mode then
    place_block lib g
  else if g.skill.is_gun_active then
    let r := camera_ray lib g
    let g := g.call .character_abort_animation_shoot
    if g.skill.is_locked then release r g else g
  else g

/-- The callback `controls::right_click_down`. -/
def right_click_down (lib : min_lib) (g : Game) : Game :=
  if g.play.is_dead then
    state_set_respawn true g
  else
    let t := world_target_block (camera_ray lib g) g
    match t.1 with
    | some target => state_track_target target t.2
    | none => t.2

/-- The callback `controls::right_click_up`. -/
def right_click_up (g : Game) : Game :=
  if g.play.is_dead && !g.skill.is_locked then
    g
  else
    state_abort_tracking g

/-- The callback `controls::jump`. -/
def jump (g : Game) : Game := g.call .player_jump

/-- The callback `controls::on_resize`. -/
def on_resize (width height : Nat) (g : Game) : Game :=
  let g := g.call (.camera_set_aspect_ratio width height)
  g.call (.ui_set_screen width height)

/-- The method `controls::update_energy_regen`; the two products are `float`
products, rounded. -/
def update_energy_regen (dt : float32) (g : Game) : Game :=
  let g :=
    if !g.play.is_dead then
      g.call (.player_add_health (float32.mul (.finite _health_regen) dt))
    else g
  let g :=
    if !g.skill.is_locked then
      g.call (.skill_add_energy (float32.mul (.finite _energy_regen) dt))
    else g
  let g := g.call (.ui_set_health g.play.get_health_percent)
  g.call (.ui_set_energy g.skill.get_energy_percent)

/-- The method `controls::update_skills`. -/
def update_skills (g : Game) : Game :=
  let g :=
    if g.skill.is_jetpack_mode && g.skill.is_locked then
      if !g.play.is_jet then
        let g := g.call .sound_stop_jet
        skill_unlock_jetpack g
      else g
    else g
  if g.skill.activate_charge then g.call .character_set_animation_charge else g

/-- The method `controls::update_ui`. -/
def update_ui (g : Game) : Game :=
  if g.skill.check_cooldown then g.call .ui_set_target_cursor
  else g.call .ui_set_reload_cursor

/-- The method `controls::update`. -/
def update (dt : float32) (g : Game) : Game :=
  update_skills (update_ui (update_energy_regen dt g))

/-- Modelled from the spec: `state::toggle_game_pause` is not in the `state.h` of the
sources; it is taken to be the `state::toggle_pause` found there, which negates the
pause flag and returns the new flag. -/
def state_toggle_game_pause (g : Game) : Bool × Game :=
  (g.state.toggle_pause.1,
   { g.call .state_toggle_game_pause with state := g.state.toggle_pause.2 })

/-- Modelled from the spec: `state::set_game_mode` is not in the `state.h` of the
sources; it stores the game-mode caption. -/
def state_set_game_mode (caption : String) (g : Game) : Game :=
  { g.call (.state_set_game_mode caption) with game_mode := caption }

/-- The callback `controls::toggle_pause`. -/
def toggle_pause (g : Game) : Game :=
  let r := state_toggle_game_pause g
  let mode := r.1
  let g := r.2
  let g :=
    if mode then
      let g := window_display_cursor true g
      let g := state_set_game_mode "MODE: PAUSE" g
      ui_set_draw_menu true g
    else
      let g := window_display_cursor false g
      let g := state_set_game_mode "MODE: PLAY" g
      ui_set_draw_menu false g
  window_set_cursor (g.window.width / 2) (g.window.height / 2) g

/-- The function behind each registered callback; `a` and `b` are the two integer
arguments of the mouse and resize callbacks (the keyboard callbacks ignore their
`step` argument). -/
def callback (lib : min_lib) (h : handler) (a b : Nat) (g : Game) : Game :=
  match h with
  | .close_window => close_window g
  | .toggle_text => toggle_text g
  | .music_down => music_down g
  | .music_up => music_up g
  | .toggle_pause => toggle_pause g
  | .toggle_edit_mode => toggle_edit_mode g
  | .forward => forward g
  | .left => left g
  | .right => right g
  | .back => back g
  | .key1_down => key1_down g
  | .key2_down => key2_down g
  | .key3_down => key3_down g
  | .key4_down => key4_down g
  | .key5_down => key5_down g
  | .key6_down => key6_down g
  | .key7_down => key7_down g
  | .key8_down => key8_down g
  | .key1_up => key1_up g
  | .key2_up => key2_up g
  | .key3_up => key3_up g
  | .key4_up => key4_up g
  | .key5_up => key5_up g
  | .key6_up => key6_up g
  | .key7_up => key7_up g
  | .key8_up => key8_up g
  | .add_x => add_x g
  | .add_y => add_y g
  | .add_z => add_z g
  | .reset => reset g
  | .left_click_down => left_click_down lib g
  | .left_click_up => left_click_up lib g
  | .right_click_down => right_click_down lib g
  | .right_click_up => right_click_up g
  | .jump => jump g
  | .on_resize => on_resize a b g

/-- One thing that happens to the game: a registered callback fires with its two
integer arguments, or the per-frame `controls::update(dt)` runs. -/
inductive event where
  | fire (h : handler) (a b : Nat)
  | tick (dt : float32)

/-- The game after one event. -/
def step (lib : min_lib) (g : Game) (e : event) : Game :=
  match e with
  | .fire h a b => callback lib h a b g
  | .tick dt => update dt g

/-- The game after a sequence of events, oldest first. -/
def run (lib : min_lib) (es : List event) (g : Game) : Game :=
  es.foldl (step lib) g

/-- The key-down callback registered for number key `n` (1 to 8). -/
def number_key_down : Nat → Game → Game
  | 1 => key1_down
  | 2 => key2_down
  | 3 => key3_down
  | 4 => key4_down
  | 5 => key5_down
  | 6 => key6_down
  | 7 => key7_down
  | 8 => key8_down
  | _ => id

/-- The key-up callback registered for number key `n` (1 to 8). -/
def number_key_up : Nat → Game → Game
  | 1 => key1_up
  | 2 => key2_up
  | 3 => key3_up
  | 4 => key4_up
  | 5 => key5_up
  | 6 => key6_up
  | 7 => key7_up
  | 8 => key8_up
  | _ => id

end controls

/-- The five mode flags of the skills, in the order beam, missile, grapple, jetpack,
scan. -/
def skills.modes (s : skills) : Bool × Bool × Bool × Bool × Bool :=
  (s.is_beam_mode, s.is_missile_mode, s.is_grapple_mode, s.is_jetpack_mode, s.is_scan_mode)

/-- The calls recorded in `g` after the game was `before`. -/
def Game.calls_since (g before : Game) : List Call := g.calls.drop before.calls.length

/-- Whether a call is one of the five `skills::unlock_*` calls. -/
def Call.is_unlock : Call → Bool
  | .skill_unlock_beam => true
  | .skill_unlock_grapple => true
  | .skill_unlock_missile => true
  | .skill_unlock_jetpack => true
  | .skill_unlock_scan => true
  | _ => false

/-- The gun-active flag and the edit-mode flag of a game. -/
def mode_flags (g : Game) : Bool × Bool := (g.skill.is_gun_active, g.world.get_edit_mode)

/-! ## `game.cpp` -/

/-- The byte layout of a `float`, as the library calls `min::write_le<float>` and
`min::read_le<float>` use it: the four bytes written for a value and the value read
back from four bytes. The library is not part of the game, so it is a parameter. -/
structure le_float where
  write : ℚ → List Nat
  read : List Nat → ℚ
  size : ∀ x, (write x).length = 4

/-- The call `min::write_le<float>(stream, x)`: the bytes of `x` are appended. -/
def write_le (le : le_float) (stream : List Nat) (x : ℚ) : List Nat :=
  stream ++ le.write x

/-- The call `min::read_le<float>(stream, next)`: the value in the four bytes at
`next`, and `next` advanced by four. -/
def read_le (le : le_float) (stream : List Nat) (next : Nat) : ℚ × Nat :=
  (le.read ((stream.drop next).take 4), next + 4)

/-- The call `camera::set_look_at(look)`. -/
def camera.set_look_at (look : vec3) (c : camera) : camera :=
  { c with look_at := look }

/-- What `save_game` and `load_game` touch in the `mglcraft` class of `game.cpp`: the
camera `_cam`, the position `_world.character_position()` answers, and the calls of
`_world.character_load(p, flag)` made so far (oldest first). -/
structure mglcraft where
  _cam : camera
  character_position : vec3
  character_loads : List (vec3 × Bool)

/-- The method `mglcraft::load_camera` (the frustum settings are left out). -/
def mglcraft.load_camera (p look : vec3) (m : mglcraft) : mglcraft :=
  { m with _cam := (m._cam.set_position (p.add ⟨0, 1, 0⟩)).set_look_at look }

/-- The call `_world.character_load(p, flag)`. -/
def mglcraft.character_load (p : vec3) (flag : Bool) (m : mglcraft) : mglcraft :=
  { m with character_loads := m.character_loads ++ [(p, flag)] }

/-- The method `mglcraft::load_game`, from the stream that `game::load_file` filled
from `bin/game.state` (empty when the load failed). -/
def mglcraft.load_game (le : le_float) (stream : List Nat) (m : mglcraft) : mglcraft :=
  if stream.length ≠ 0 then
    let next := 0
    let x := read_le le stream next
    let y := read_le le stream x.2
    let z := read_le le stream y.2
    let p : vec3 := ⟨x.1, y.1, z.1⟩
    let m := m.character_load p true
    let lx := read_le le stream z.2
    let ly := read_le le stream lx.2
    let lz := read_le le stream ly.2
    let look : vec3 := ⟨lx.1, ly.1, lz.1⟩
    m.load_camera p look
  else
    let p : vec3 := ⟨0, 2, 0⟩
    let m := m.character_load p false
    let look : vec3 := ⟨1, 2, 0⟩
    m.load_camera p look

/-- The method `mglcraft::save_game`: the stream it hands to `game::save_file` for
`bin/game.state`. -/
def mglcraft.save_game (lib : min_lib) (le : le_float) (m : mglcraft) : List Nat :=
  let stream : List Nat := []
  let p := m.character_position
  let stream := write_le le stream p.x
  let stream := write_le le stream p.y
  let stream := write_le le stream p.z
  let look := lib.project_point m._cam 3
  let stream := write_le le stream look.x
  let stream := write_le le stream look.y
  write_le le stream look.z

/-- Whether a call takes energy from the skills: `consume` or `will_consume`. -/
def Call.is_consume : Call → Bool
  | .skill_consume _ => true
  | .skill_will_consume _ => true
  | _ => false

/-- The game with the dead flag of the player set to `flag`. -/
def Game.with_dead (flag : Bool) (g : Game) : Game :=
  { g with play := { g.play with is_dead := flag } }

/-- The pause flag together with what `toggle_pause` keeps in step with it: the cursor
visibility, the menu flag and the game-mode caption. -/
def pause_view (g : Game) : Bool × Bool × Bool × String :=
  (g.state._pause, g.window.cursor_displayed, g.draw_menu, g.game_mode)

/-- Cursor, menu and caption are in step with the pause flag: the cursor is displayed
and the menu drawn exactly when the game is paused, and the caption says so. -/
def pause_in_step (g : Game) : Prop :=
  g.window.cursor_displayed = g.state._pause ∧ g.draw_menu = g.state._pause ∧
  g.game_mode = (if g.state._pause = true then "MODE: PAUSE" else "MODE: PLAY")

/-! ## Sample values -/

/-- A simple instance of the library kernels. -/
def sample_lib : min_lib where
  frame := fun p l => (l.sub p, vec3.up, ⟨1, 0, 0⟩)
  move_look_at := fun x y c => c.look_at.add ⟨x, y, 0⟩
  project_point := fun c d => c.position.add (c.forward.scale d)
  normalize := fun v => v
  quat_arc := fun _ _ _ => ⟨1, 0, 0, 0⟩
  quat_mul := fun a _ => a

/-- A camera at the origin looking along the z axis. -/
def sample_camera : camera := ⟨⟨0, 0, 0⟩, ⟨0, 0, 1⟩, ⟨0, 0, 1⟩, vec3.up, ⟨1, 0, 0⟩⟩

/-- A freshly constructed state. -/
def sample_state : state := state.init sample_lib sample_camera ⟨0, 2, 0⟩ ⟨1, 2, 0⟩

/-- A window with an empty keyboard. -/
def sample_window : window :=
  ⟨⟨[], [], [], []⟩, none, none, none, none, none, none, 720, 480, (0, 0), false, false⟩

/-- Skills in beam mode, gun active, unlocked, off cooldown, with energy for every
cost up to 50. -/
def sample_skills : skills where
  is_locked := false
  is_gun_active := true
  is_beam_mode := true
  is_missile_mode := false
  is_grapple_mode := false
  is_jetpack_mode := false
  is_scan_mode := false
  is_off_cooldown := true
  is_beam_charged := false
  can_consume := fun e => decide (e ≤ 50)
  will_consume := fun e => decide (e ≤ 50)
  activate_charge := false
  check_cooldown := true
  get_energy_percent := 1 / 2

/-- A world outside edit mode in which every ray hits the block at (1, 2, 3). -/
def sample_world : world where
  get_edit_mode := false
  hook_set := fun _ => some ⟨1, 2, 3⟩
  target_block := fun _ => some ⟨1, 2, 3⟩
  explode_block_radius := fun _ _ => 1
  explode_block := fun _ _ => 1
  launch_missile := fun _ => true
  scan_block := fun _ => 1

/-- A running game: living player, beam mode, gun active, nothing locked. -/
def sample_game : Game where
  window := sample_window
  camera := sample_camera
  state := sample_state
  skill := sample_skills
  play := ⟨false, false, 1⟩
  world := sample_world
  console := some .beam
  draw_menu := false
  game_mode := "MODE: PLAY"
  calls := []

/-- A living player in jetpack mode with the gun active, on cooldown and without
energy for any cost. -/
def sample_spent_jetpack : Game :=
  { sample_game with
    skill := { sample_skills with
      is_beam_mode := false, is_jetpack_mode := true, is_off_cooldown := false,
      can_consume := fun _ => false, will_consume := fun _ => false } }

/-- The sample game with the skill locked. -/
def sample_locked_game : Game :=
  { sample_game with skill := { sample_skills with is_locked := true } }

/-- The sample state while it tracks the point (4, 5, 6). -/
def sample_tracking_state : state := sample_state.track_target ⟨4, 5, 6⟩

/-- A byte layout for the natural numbers below 2^32 (every other value is written
as 0): the four little-endian bytes of the number. -/
def sample_le : le_float where
  write := fun x =>
    let n := if x.den = 1 then x.num.toNat % 4294967296 else 0
    [n % 256, n / 256 % 256, n / 65536 % 256, n / 16777216 % 256]
  read := fun bs =>
    ((bs.getD 0 0 + 256 * bs.getD 1 0 + 65536 * bs.getD 2 0 + 16777216 * bs.getD 3 0 : Nat) : ℚ)
  size := fun _ => rfl

/-- A saved game: the character stands at (5, 2, 7) and the sample camera looks from
the origin along the z axis. -/
def sample_mglcraft : mglcraft := ⟨sample_camera, ⟨5, 2, 7⟩, []⟩

/-- The sample game in edit mode. -/
def sample_edit_game : Game :=
  { sample_game with world := { sample_world with get_edit_mode := true } }

/-- The sample game in grapple mode. -/
def sample_grapple_game : Game :=
  { sample_game with
    skill := { sample_skills with is_beam_mode := false, is_grapple_mode := true } }

/-- The sample game with a charged beam held locked. -/
def sample_charged_game : Game :=
  { sample_game with skill := { sample_skills with is_locked := true, is_beam_charged := true } }

/-- The sample game with the missile held locked. -/
def sample_missile_game : Game :=
  { sample_game with
    skill := { sample_skills with
      is_locked := true, is_beam_mode := false, is_missile_mode := true } }

/-- The sample game after the player died. -/
def sample_dead_game : Game :=
  { sample_game with play := ⟨true, false, 0⟩ }

/-- A frame with the cursor right of the centre of a 720 by 480 window. -/
def sample_frame : frame := ⟨⟨0, 0, 0⟩, (500, 240), 720, 480⟩

/-- The sample game in jetpack mode. -/
def sample_jetpack_game : Game :=
  { sample_game with
    skill := { sample_skills with is_beam_mode := false, is_jetpack_mode := true } }

/-- The sample jetpack game after the left button went down (jet on, skill locked)
and the Q key then switched to edit mode. -/
def sample_held_jetpack : Game :=
  controls.run sample_lib [.fire .left_click_down 0 0, .fire .toggle_edit_mode 0 0]
    sample_jetpack_game

/-- The player of `sample_held_jetpack` after dying: dead, the skill still locked in
jetpack mode, the jet on, edit mode on. -/
def sample_dead_held_jetpack : Game := sample_held_jetpack.with_dead true

/-! ## Theorems -/

namespace controls

/-- C1: key_down runs the supplied action, after the toolbar key-down and the click
sound, exactly when the skill is not locked and the gun is active; when the skill is
locked or the gun inactive the result does not depend on the action at all, only one
call (set_atlas_id or set_key_down_fail) is recorded, and the skills (so the weapon
mode) and the console string are unchanged. -/
theorem key_down_runs_action_iff_unlocked_and_active (index : Nat) (f : Game → Game)
    (g : Game) :
    ((g.skill.is_locked = false ∧ g.skill.is_gun_active = true) →
      key_down index (some f) g
        = f ((g.call (.ui_set_key_down index)).call .sound_play_click)) ∧
    (¬ (g.skill.is_locked = false ∧ g.skill.is_gun_active = true) →
      key_down index (some f) g = key_down index none g ∧
      ((key_down index (some f) g).calls = g.calls ++ [.world_set_atlas_id index] ∨
       (key_down index (some f) g).calls = g.calls ++ [.ui_set_key_down_fail index]) ∧
      (key_down index (some f) g).skill = g.skill ∧
      (key_down index (some f) g).skill.modes = g.skill.modes ∧
      (key_down index (some f) g).console = g.console) := by
  constructor
  · rintro ⟨hl, ha⟩
    simp [key_down, hl, ha]
  · intro h
    have hc : (!g.skill.is_locked && g.skill.is_gun_active) = false := by
      cases hl : g.skill.is_locked <;> cases ha : g.skill.is_gun_active <;> simp_all
    cases he : g.world.get_edit_mode <;> simp [key_down, hc, he, Game.call]

/-- C1, at a locked game: pressing a key with the grapple action leaves the console
string alone. -/
theorem key_down_runs_action_iff_unlocked_and_active_witness :
    (key_down 2 (some key3_action)
        { sample_game with skill := { sample_skills with is_locked := true } }).console
      = some .beam :=
  ((key_down_runs_action_iff_unlocked_and_active 2 key3_action
      { sample_game with skill := { sample_skills with is_locked := true } }).2
    (by simp [sample_skills])).2.2.2.2

/-- C2: the number-key table. Key N down is key_down with index N-1 and the action of
the table (beam, missile, grapple, jetpack, scan for 1 to 5, none for 6 to 8); key N up
is ui.set_key_up(N-1); each of the five actions makes exactly its own mode current and
puts that mode's string in the console; keys 6, 7, 8 leave the mode flags as they
were in every state. -/
theorem number_key_table (g : Game) :
    (∀ i : Fin 8, number_key_down (i + 1) g
        = key_down i (![some key1_action, some key2_action, some key3_action,
            some key4_action, some key5_action, none, none, none] i) g) ∧
    (∀ i : Fin 8, number_key_up (i + 1) g = g.call (.ui_set_key_up i)) ∧
    ((key1_action g).skill.modes = (true, false, false, false, false) ∧
      (key1_action g).console = some .beam) ∧
    ((key2_action g).skill.modes = (false, true, false, false, false) ∧
      (key2_action g).console = some .missile) ∧
    ((key3_action g).skill.modes = (false, false, true, false, false) ∧
      (key3_action g).console = some .grapple) ∧
    ((key4_action g).skill.modes = (false, false, false, true, false) ∧
      (key4_action g).console = some .jet) ∧
    ((key5_action g).skill.modes = (false, false, false, false, true) ∧
      (key5_action g).console = some .scan) ∧
    (∀ i : Fin 3, (number_key_down (i + 6) g).skill.modes = g.skill.modes) := by
  refine ⟨?_, ?_, ⟨rfl, rfl⟩, ⟨rfl, rfl⟩, ⟨rfl, rfl⟩, ⟨rfl, rfl⟩, ⟨rfl, rfl⟩, ?_⟩
  · intro i
    fin_cases i <;> rfl
  · intro i
    fin_cases i <;> rfl
  · intro i
    fin_cases i <;>
      simp only [number_key_down, key6_down, key7_down, key8_down, key_down] <;>
      split_ifs <;> rfl

/-- C3: key_down has exactly three outcomes. With the skill unlocked and the gun
active: toolbar key-down, click, then the action if there is one. Otherwise, in edit
mode: the single call world.set_atlas_id(index). Otherwise: the single call
ui.set_key_down_fail(index). So in edit mode with the gun inactive number key N
selects atlas id N-1. -/
theorem key_down_three_outcomes (index : Nat) (f : Option (Game → Game)) (g : Game) :
    ((g.skill.is_locked = false ∧ g.skill.is_gun_active = true) →
      key_down index f g
        = (f.getD id) ((g.call (.ui_set_key_down index)).call .sound_play_click)) ∧
    (¬ (g.skill.is_locked = false ∧ g.skill.is_gun_active = true) →
      g.world.get_edit_mode = true →
      key_down index f g = g.call (.world_set_atlas_id index)) ∧
    (¬ (g.skill.is_locked = false ∧ g.skill.is_gun_active = true) →
      g.world.get_edit_mode = false →
      key_down index f g = g.call (.ui_set_key_down_fail index)) ∧
    (g.world.get_edit_mode = true → g.skill.is_gun_active = false →
      ∀ i : Fin 8, number_key_down (i + 1) g = g.call (.world_set_atlas_id i)) := by
  have hc : ¬ (g.skill.is_locked = false ∧ g.skill.is_gun_active = true) →
      (!g.skill.is_locked && g.skill.is_gun_active) = false := by
    intro h
    cases hl : g.skill.is_locked <;> cases ha : g.skill.is_gun_active <;> simp_all
  refine ⟨?_, ?_, ?_, ?_⟩
  · rintro ⟨hl, ha⟩
    cases f <;> simp [key_down, hl, ha]
  · intro h he
    simp [key_down, hc h, he]
  · intro h he
    simp [key_down, hc h, he]
  · intro he ha i
    fin_cases i <;>
      simp [number_key_down, key1_down, key2_down, key3_down, key4_down, key5_down,
        key6_down, key7_down, key8_down, key_down, he, ha]

/-- C3, in edit mode with the gun inactive: key 4 records exactly set_atlas_id(3). -/
theorem key_down_three_outcomes_witness :
    (key4_down
        { sample_game with
          skill := { sample_skills with is_gun_active := false },
          world := { sample_world with get_edit_mode := true } }).calls
      = [.world_set_atlas_id 3] :=
  congrArg Game.calls
    ((key_down_three_outcomes 3 none
        { sample_game with
          skill := { sample_skills with is_gun_active := false },
          world := { sample_world with get_edit_mode := true } }).2.2.2 rfl rfl 3)

/-! ### Edit mode and the gun -/

theorem key_down_mode_flags (index : Nat) (f : Option (Game → Game)) (g : Game)
    (hf : ∀ act, f = some act → ∀ x, mode_flags (act x) = mode_flags x) :
    mode_flags (key_down index f g) = mode_flags g := by
  unfold key_down
  split_ifs
  · cases f with
    | none => unfold mode_flags; rfl
    | some act =>
      dsimp only
      rw [hf act rfl]
      unfold mode_flags
      rfl
  · unfold mode_flags; rfl
  · unfold mode_flags; rfl

theorem number_key_down_mode_flags (n : Nat) (g : Game) :
    mode_flags (number_key_down n g) = mode_flags g := by
  have h1 : ∀ x, mode_flags (key1_action x) = mode_flags x := fun _ => rfl
  have h2 : ∀ x, mode_flags (key2_action x) = mode_flags x := fun _ => rfl
  have h3 : ∀ x, mode_flags (key3_action x) = mode_flags x := fun _ => rfl
  have h4 : ∀ x, mode_flags (key4_action x) = mode_flags x := fun _ => rfl
  have h5 : ∀ x, mode_flags (key5_action x) = mode_flags x := fun _ => rfl
  unfold number_key_down
  split
  · exact key_down_mode_flags _ _ _ (fun act ha => by cases ha; exact h1)
  · exact key_down_mode_flags _ _ _ (fun act ha => by cases ha; exact h2)
  · exact key_down_mode_flags _ _ _ (fun act ha => by cases ha; exact h3)
  · exact key_down_mode_flags _ _ _ (fun act ha => by cases ha; exact h4)
  · exact key_down_mode_flags _ _ _ (fun act ha => by cases ha; exact h5)
  · exact key_down_mode_flags _ _ _ (fun act ha => by cases ha)
  · exact key_down_mode_flags _ _ _ (fun act ha => by cases ha)
  · exact key_down_mode_flags _ _ _ (fun act ha => by cases ha)
  · rfl

theorem fire_grapple_mode_flags (lib : min_lib) (g : Game) :
    mode_flags (fire_grapple lib g) = mode_flags g := by
  unfold fire_grapple mode_flags
  dsimp only
  split <;> rfl

theorem left_click_down_mode_flags (lib : min_lib) (g : Game) :
    mode_flags (left_click_down lib g) = mode_flags g := by
  unfold left_click_down
  split_ifs <;> first | exact fire_grapple_mode_flags _ _ | (unfold mode_flags; rfl)

theorem release_mode_flags (r : ray) (g : Game) :
    mode_flags (release r g) = mode_flags g := by
  unfold release release_charged_beam release_beam release_missile release_grapple
    release_jetpack release_scan mode_flags
  dsimp only
  split_ifs <;> rfl

theorem left_click_up_mode_flags (lib : min_lib) (g : Game) :
    mode_flags (left_click_up lib g) = mode_flags g := by
  unfold left_click_up place_block
  dsimp only
  split_ifs <;> first | exact release_mode_flags _ _ | (unfold mode_flags; rfl)

theorem right_click_down_mode_flags (lib : min_lib) (g : Game) :
    mode_flags (right_click_down lib g) = mode_flags g := by
  unfold right_click_down mode_flags
  dsimp only
  split_ifs
  · rfl
  · split <;> rfl

theorem right_click_up_mode_flags (g : Game) :
    mode_flags (right_click_up g) = mode_flags g := by
  unfold right_click_up mode_flags
  split_ifs <;> rfl

theorem toggle_pause_mode_flags (g : Game) :
    mode_flags (toggle_pause g) = mode_flags g := by
  unfold toggle_pause mode_flags
  dsimp only
  split_ifs <;> rfl

theorem update_mode_flags (dt : float32) (g : Game) :
    mode_flags (update dt g) = mode_flags g := by
  unfold update update_skills update_ui update_energy_regen mode_flags
  dsimp only
  split_ifs <;> rfl

theorem callback_mode_flags (lib : min_lib) (h : handler) (a b : Nat) (g : Game)
    (hne : h ≠ .toggle_edit_mode) :
    mode_flags (callback lib h a b g) = mode_flags g := by
  cases h
  case toggle_edit_mode => exact absurd rfl hne
  case toggle_pause => exact toggle_pause_mode_flags g
  case key1_down => exact number_key_down_mode_flags 1 g
  case key2_down => exact number_key_down_mode_flags 2 g
  case key3_down => exact number_key_down_mode_flags 3 g
  case key4_down => exact number_key_down_mode_flags 4 g
  case key5_down => exact number_key_down_mode_flags 5 g
  case key6_down => exact number_key_down_mode_flags 6 g
  case key7_down => exact number_key_down_mode_flags 7 g
  case key8_down => exact number_key_down_mode_flags 8 g
  case left_click_down => exact left_click_down_mode_flags lib g
  case left_click_up => exact left_click_up_mode_flags lib g
  case right_click_down => exact right_click_down_mode_flags lib g
  case right_click_up => exact right_click_up_mode_flags g
  all_goals (unfold mode_flags; rfl)

theorem toggle_edit_mode_gun (g : Game) :
    (toggle_edit_mode g).skill.is_gun_active = !(toggle_edit_mode g).world.get_edit_mode := by
  simp [toggle_edit_mode, world_toggle_edit_mode, skill_set_gun_active, Game.call]

theorem step_keeps_gun_opposite_edit (lib : min_lib) (e : event) (g : Game)
    (h : g.skill.is_gun_active = !g.world.get_edit_mode) :
    (step lib g e).skill.is_gun_active = !(step lib g e).world.get_edit_mode := by
  cases e with
  | tick dt =>
    have hm := update_mode_flags dt g
    simp only [mode_flags, Prod.mk.injEq] at hm
    simp only [step, hm.1, hm.2, h]
  | fire hd a b =>
    by_cases hq : hd = .toggle_edit_mode
    · subst hq
      exact toggle_edit_mode_gun g
    · have hm := callback_mode_flags lib hd a b g hq
      simp only [mode_flags, Prod.mk.injEq] at hm
      simp only [step, hm.1, hm.2, h]

theorem run_keeps_gun_opposite_edit (lib : min_lib) (es : List event) (g : Game)
    (h : g.skill.is_gun_active = !g.world.get_edit_mode) :
    (run lib es g).skill.is_gun_active = !(run lib es g).world.get_edit_mode := by
  induction es generalizing g with
  | nil => exact h
  | cons e es ih => exact ih (step lib g e) (step_keeps_gun_opposite_edit lib e g h)

theorem toggle_edit_mode_twice (g : Game)
    (h : g.skill.is_gun_active = !g.world.get_edit_mode) :
    (toggle_edit_mode (toggle_edit_mode g)).world.get_edit_mode = g.world.get_edit_mode ∧
    (toggle_edit_mode (toggle_edit_mode g)).skill.is_gun_active = g.skill.is_gun_active := by
  constructor
  · simp [toggle_edit_mode, world_toggle_edit_mode, skill_set_gun_active, Game.call]
  · simp only [toggle_edit_mode, world_toggle_edit_mode, skill_set_gun_active, Game.call,
      Bool.not_not]
    exact h.symm

/-- C4: every toggle_edit_mode negates the edit-mode flag, leaves the gun active
exactly when the new edit mode is off, and resets the scale as its last call; so in
every state reached after at least one toggle, whatever callbacks and updates
followed it, the gun is active if and only if edit mode is off, and two toggles in a
row restore both the edit-mode flag and the gun-active flag. -/
theorem toggle_edit_mode_flags (lib : min_lib) (g : Game) :
    (toggle_edit_mode g).world.get_edit_mode = !g.world.get_edit_mode ∧
    (toggle_edit_mode g).skill.is_gun_active = !(toggle_edit_mode g).world.get_edit_mode ∧
    (toggle_edit_mode g).calls
      = g.calls ++ [.world_toggle_edit_mode, .skill_set_gun_active g.world.get_edit_mode,
          .world_reset_scale] ∧
    (∀ es : List event,
      (run lib es (toggle_edit_mode g)).skill.is_gun_active
        = !(run lib es (toggle_edit_mode g)).world.get_edit_mode) ∧
    (∀ es : List event,
      (toggle_edit_mode (toggle_edit_mode (run lib es (toggle_edit_mode g)))
          ).world.get_edit_mode
        = (run lib es (toggle_edit_mode g)).world.get_edit_mode ∧
      (toggle_edit_mode (toggle_edit_mode (run lib es (toggle_edit_mode g)))
          ).skill.is_gun_active
        = (run lib es (toggle_edit_mode g)).skill.is_gun_active) := by
  refine ⟨rfl, toggle_edit_mode_gun g, ?_,
    fun es => run_keeps_gun_opposite_edit lib es _ (toggle_edit_mode_gun g),
    fun es => toggle_edit_mode_twice _
      (run_keeps_gun_opposite_edit lib es _ (toggle_edit_mode_gun g))⟩
  simp [toggle_edit_mode, world_toggle_edit_mode, skill_set_gun_active, Game.call]

/-! ### Press gates -/

/-- C5 (as the code has it): for a living player with the gun active and exactly one
mode current, left_click_down calls skill.lock() in beam mode iff the skill is off
cooldown and can_consume(20) holds; in grapple mode iff can_consume(10) holds and the
hook hits, whatever the cooldown; in missile mode iff the skill is off cooldown, with
no energy check; and in jetpack and in scan mode always. -/
theorem left_click_down_lock_gates (lib : min_lib) (g : Game)
    (hd : g.play.is_dead = false) (ha : g.skill.is_gun_active = true) :
    (g.skill.modes = (true, false, false, false, false) →
      (Call.skill_lock ∈ (left_click_down lib g).calls_since g ↔
        g.skill.is_off_cooldown = true ∧ g.skill.can_consume 20 = true)) ∧
    (g.skill.modes = (false, false, true, false, false) →
      (Call.skill_lock ∈ (left_click_down lib g).calls_since g ↔
        g.skill.can_consume 10 = true ∧ (g.world.hook_set (camera_ray lib g)).isSome = true)) ∧
    (g.skill.modes = (false, true, false, false, false) →
      (Call.skill_lock ∈ (left_click_down lib g).calls_since g ↔
        g.skill.is_off_cooldown = true)) ∧
    (g.skill.modes = (false, false, false, true, false) →
      Call.skill_lock ∈ (left_click_down lib g).calls_since g) ∧
    (g.skill.modes = (false, false, false, false, true) →
      Call.skill_lock ∈ (left_click_down lib g).calls_since g) := by
  refine ⟨?_, ?_, ?_, ?_, ?_⟩ <;> intro hm <;>
    simp only [skills.modes, Prod.mk.injEq] at hm <;>
    obtain ⟨h1, h2, h3, h4, h5⟩ := hm
  · cases hc : g.skill.is_off_cooldown <;> cases he : g.skill.can_consume 20 <;>
      simp [left_click_down, Game.calls_since, skill_lock, Game.call, _beam_charge_cost, *]
  · cases he : g.skill.can_consume 10 <;> cases hh : g.world.hook_set (camera_ray lib g) <;>
      simp [left_click_down, fire_grapple, world_hook_set, Game.calls_since, skill_lock,
        Game.call, _grapple_cost, *]
  · cases hc : g.skill.is_off_cooldown <;>
      simp [left_click_down, Game.calls_since, skill_lock, Game.call, *]
  · simp [left_click_down, Game.calls_since, skill_lock, Game.call, player_set_jet, *]
  · simp [left_click_down, Game.calls_since, skill_lock, Game.call, *]


/-- C5, for the sample game (beam mode, off cooldown, energy for 20): the press locks. -/
theorem left_click_down_lock_gates_witness :
    Call.skill_lock ∈ (left_click_down sample_lib sample_game).calls_since sample_game :=
  ((left_click_down_lock_gates sample_lib sample_game rfl rfl).1 rfl).2
    ⟨rfl, by norm_num [sample_game, sample_skills]⟩

/-- C5 fails as stated: a living player in jetpack mode with the gun active, on
cooldown and with no energy for any cost, still gets the skill locked by the press. -/
theorem left_click_down_locks_spent_jetpack :
    sample_spent_jetpack.play.is_dead = false ∧
    sample_spent_jetpack.skill.is_gun_active = true ∧
    sample_spent_jetpack.skill.modes = (false, false, false, true, false) ∧
    sample_spent_jetpack.skill.is_off_cooldown = false ∧
    (∀ e, sample_spent_jetpack.skill.can_consume e = false) ∧
    Call.skill_lock ∈
      (left_click_down sample_lib sample_spent_jetpack).calls_since sample_spent_jetpack ∧
    (left_click_down sample_lib sample_spent_jetpack).skill.is_locked = true := by
  refine ⟨rfl, rfl, rfl, rfl, fun _ => rfl, ?_, rfl⟩
  simp [left_click_down, sample_spent_jetpack, sample_game, sample_skills,
    Game.calls_since, skill_lock, Game.call, player_set_jet]

/-! ### Release -/

/-- C6: with edit mode off, the gun active and the skill locked, exactly one mode
current and is_beam_charged only in beam mode, left_click_up makes exactly one unlock
call, the one of the current mode (unlock_beam, unlock_missile, unlock_grapple,
unlock_jetpack, unlock_scan), whatever the energy checks, explode_block, launch_missile
and scan_block answer. -/
theorem left_click_up_unlocks_current_mode (lib : min_lib) (g : Game)
    (he : g.world.get_edit_mode = false) (ha : g.skill.is_gun_active = true)
    (hl : g.skill.is_locked = true)
    (hb : g.skill.is_beam_charged = true → g.skill.is_beam_mode = true) :
    (g.skill.modes = (true, false, false, false, false) →
      ((left_click_up lib g).calls_since g).filter Call.is_unlock = [.skill_unlock_beam]) ∧
    (g.skill.modes = (false, true, false, false, false) →
      ((left_click_up lib g).calls_since g).filter Call.is_unlock = [.skill_unlock_missile]) ∧
    (g.skill.modes = (false, false, true, false, false) →
      ((left_click_up lib g).calls_since g).filter Call.is_unlock = [.skill_unlock_grapple]) ∧
    (g.skill.modes = (false, false, false, true, false) →
      ((left_click_up lib g).calls_since g).filter Call.is_unlock = [.skill_unlock_jetpack]) ∧
    (g.skill.modes = (false, false, false, false, true) →
      ((left_click_up lib g).calls_since g).filter Call.is_unlock = [.skill_unlock_scan]) := by
  refine ⟨?_, ?_, ?_, ?_, ?_⟩ <;> intro hm <;>
    simp only [skills.modes, Prod.mk.injEq] at hm <;>
    obtain ⟨h1, h2, h3, h4, h5⟩ := hm
  · cases hc : g.skill.is_beam_charged
    · simp only [left_click_up, release, release_beam, he, ha, hl, hc, h1, Game.call,
        Bool.not_true, Bool.and_false, Bool.false_eq_true, if_false, if_true]
      split_ifs <;>
        simp [Game.calls_since, skill_unlock_beam, skill_unlock, Game.call,
          world_explode_block, Call.is_unlock]
    · simp only [left_click_up, release, release_charged_beam, he, ha, hl, hc, h1, Game.call,
        Bool.not_true, Bool.and_false, Bool.false_eq_true, if_false, if_true]
      split_ifs <;>
        simp [Game.calls_since, skill_unlock_beam, skill_unlock, Game.call,
          world_explode_block_radius, Call.is_unlock]
  · have hc : g.skill.is_beam_charged = false := by
      cases hc : g.skill.is_beam_charged
      · rfl
      · rw [hb hc] at h1; exact absurd h1 (by decide)
    simp only [left_click_up, release, release_missile, he, ha, hl, hc, h1, h2, h3, Game.call,
        Bool.not_true, Bool.and_false, Bool.false_eq_true, if_false, if_true]
    split_ifs <;>
        simp [Game.calls_since, skill_unlock_missile, skill_unlock, Game.call,
          world_launch_missile, skill_will_consume, Call.is_unlock]
  · have hc : g.skill.is_beam_charged = false := by
      cases hc : g.skill.is_beam_charged
      · rfl
      · rw [hb hc] at h1; exact absurd h1 (by decide)
    simp [left_click_up, release, release_grapple, he, ha, hl, hc, h1, h2, h3, Game.call,
       Game.calls_since, skill_unlock_grapple, skill_unlock, Call.is_unlock]
  · have hc : g.skill.is_beam_charged = false := by
      cases hc : g.skill.is_beam_charged
      · rfl
      · rw [hb hc] at h1; exact absurd h1 (by decide)
    simp [left_click_up, release, release_jetpack, he, ha, hl, hc, h1, h2, h3, h4, Game.call,
       Game.calls_since, skill_unlock_jetpack, skill_unlock, Call.is_unlock, player_set_jet]
  · have hc : g.skill.is_beam_charged = false := by
      cases hc : g.skill.is_beam_charged
      · rfl
      · rw [hb hc] at h1; exact absurd h1 (by decide)
    simp [left_click_up, release, release_scan, he, ha, hl, hc, h1, h2, h3, h4, h5, Game.call,
       Game.calls_since, skill_unlock_scan, skill_unlock, Call.is_unlock, world_scan_block,
       ui_set_console_string]


/-- C6, for the sample game with the beam locked: the release calls unlock_beam and no
other unlock. -/
theorem left_click_up_unlocks_current_mode_witness :
    ((left_click_up sample_lib sample_locked_game).calls_since sample_locked_game).filter
        Call.is_unlock = [.skill_unlock_beam] :=
  (left_click_up_unlocks_current_mode sample_lib sample_locked_game rfl rfl rfl
    (fun _ => rfl)).1 rfl

end controls

/-! ### Camera tracking -/

/-- C7: while tracking is enabled, state::update puts the camera at p + (0, 0.5, 0)
looking at the stored target, gives the same state whatever the cursor position and
the window size are, and leaves the smoothing buffers and the frame count as they
were. -/
theorem state.update_tracking_ignores_cursor (lib : min_lib) (s : state) (p : vec3)
    (c c2 : Nat × Nat) (w h w2 h2 : Nat) (hf : s._fix_target = true) :
    (s.update lib p c w h)._camera.position = p.add ⟨0, 1 / 2, 0⟩ ∧
    (s.update lib p c w h)._camera.look_at = s._target ∧
    s.update lib p c w h = s.update lib p c2 w2 h2 ∧
    (s.update lib p c w h)._x = s._x ∧
    (s.update lib p c w h)._y = s._y ∧
    (s.update lib p c w h)._frame_count = s._frame_count := by
  simp [state.update, hf, state.update_model_matrix, camera.force_update, camera.set]

/-- C7, for the sample state tracking (4, 5, 6): two updates with different cursors
and window sizes agree. -/
theorem state.update_tracking_ignores_cursor_witness :
    sample_tracking_state.update sample_lib ⟨1, 1, 1⟩ (10, 20) 720 480
      = sample_tracking_state.update sample_lib ⟨1, 1, 1⟩ (700, 3) 1920 1080 :=
  (state.update_tracking_ignores_cursor sample_lib sample_tracking_state ⟨1, 1, 1⟩
    (10, 20) (700, 3) 720 480 1920 1080 rfl).2.2.1

namespace controls

/-- C8: on a living player right_click_down enables tracking on the hit point when
target_block reports a hit and otherwise leaves the whole state (flag and target
included) as it was; track_target stores the target and sets the flag; abort_tracking
clears the flag, is idempotent and changes no other field; right_click_up is
abort_tracking in every state except dead-and-not-locked, where it does nothing. -/
theorem tracking_lifecycle (lib : min_lib) (g : Game) (s : state) (t : vec3) :
    (g.play.is_dead = false →
      (∀ hit, g.world.target_block (camera_ray lib g) = some hit →
        (right_click_down lib g).state._fix_target = true ∧
        (right_click_down lib g).state._target = hit) ∧
      (g.world.target_block (camera_ray lib g) = none →
        (right_click_down lib g).state = g.state)) ∧
    ((s.track_target t)._target = t ∧ (s.track_target t)._fix_target = true) ∧
    ((s.abort_tracking)._fix_target = false ∧
      s.abort_tracking.abort_tracking = s.abort_tracking ∧
      s.abort_tracking = { s with _fix_target := false } ∧
      (s.abort_tracking)._target = s._target) ∧
    (¬ (g.play.is_dead = true ∧ g.skill.is_locked = false) →
      right_click_up g = state_abort_tracking g ∧
      (right_click_up g).state = g.state.abort_tracking) ∧
    ((g.play.is_dead = true ∧ g.skill.is_locked = false) → right_click_up g = g) := by
  refine ⟨?_, ⟨rfl, rfl⟩, ⟨rfl, rfl, rfl, rfl⟩, ?_, ?_⟩
  · intro hd
    constructor
    · intro hit hh
      simp [right_click_down, hd, world_target_block, hh, state_track_target,
        state.track_target]
    · intro hh
      simp [right_click_down, hd, world_target_block, hh, Game.call]
  · intro h
    have hc : (g.play.is_dead && !g.skill.is_locked) = false := by
      cases hd : g.play.is_dead <;> cases hl : g.skill.is_locked <;> simp_all
    simp [right_click_up, hc, state_abort_tracking]
  · rintro ⟨hd, hl⟩
    simp [right_click_up, hd, hl]

/-- C8, for the sample game (living player, every ray hits (1, 2, 3)): the right
click starts tracking that point. -/
theorem tracking_lifecycle_witness :
    (right_click_down sample_lib sample_game).state._fix_target = true ∧
    (right_click_down sample_lib sample_game).state._target = ⟨1, 2, 3⟩ :=
  ((tracking_lifecycle sample_lib sample_game sample_state ⟨0, 0, 0⟩).1 rfl).1 ⟨1, 2, 3⟩ rfl

end controls

/-! ### The smoothing filter -/

theorem ring_holds_set (buf : List ℚ) (k : Nat) (a b c d e : ℚ)
    (h : ring_holds buf (k % 4) a b c d) :
    ring_holds (buf.set (k % 4) e) ((k % 4 + 1) % 4) e a b c := by
  rcases h with ⟨hk, hb⟩ | ⟨hk, hb⟩ | ⟨hk, hb⟩ | ⟨hk, hb⟩ <;>
    simp [ring_holds, hk, hb]

theorem ring_holds_average (buf : List ℚ) (k : Nat) (a b c d : ℚ)
    (h : ring_holds buf k a b c d) :
    state.average buf = (a + b + c + d) / 4 := by
  rcases h with ⟨_, hb⟩ | ⟨_, hb⟩ | ⟨_, hb⟩ | ⟨_, hb⟩ <;>
    simp [state.average, _frame_average, hb, List.range_succ] <;> ring

theorem state.update_not_tracking (lib : min_lib) (s : state) (f : frame)
    (hf : s._fix_target = false) :
    (s.update lib f.p f.c f.w f.h)._fix_target = false ∧
    (s.update lib f.p f.c f.w f.h)._frame_count = s._frame_count % 4 + 1 ∧
    (s.update lib f.p f.c f.w f.h)._x = s._x.set (s._frame_count % 4) f.sx ∧
    (s.update lib f.p f.c f.w f.h)._y = s._y.set (s._frame_count % 4) f.sy := by
  simp only [state.update, hf, state.update_model_matrix, state.look, state.store_sample,
    Bool.false_eq_true, if_false, frame.sx, frame.sy, _frame_average]
  split_ifs <;> simp

theorem state.init_holds_history (lib : min_lib) (cam : camera) (spawn look : vec3) :
    (state.init lib cam spawn look).holds_history [] [] := by
  refine ⟨rfl, Or.inl ⟨rfl, ?_⟩, Or.inl ⟨rfl, ?_⟩⟩ <;>
    simp [state.init, state.set_camera, _frame_average, List.replicate]

theorem state.update_holds_history (lib : min_lib) (s : state) (f : frame) (hx hy : List ℚ)
    (h : s.holds_history hx hy) :
    (s.update lib f.p f.c f.w f.h).holds_history (f.sx :: hx) (f.sy :: hy) := by
  obtain ⟨hf, hrx, hry⟩ := h
  obtain ⟨h1, h2, h3, h4⟩ := state.update_not_tracking lib s f hf
  refine ⟨h1, ?_, ?_⟩
  · rw [h2, h3]
    simpa using ring_holds_set s._x s._frame_count _ _ _ _ f.sx hrx
  · rw [h2, h4]
    simpa using ring_holds_set s._y s._frame_count _ _ _ _ f.sy hry

theorem state.updates_holds_history (lib : min_lib) (cam : camera) (spawn look : vec3)
    (fs : List frame) :
    ((state.init lib cam spawn look).updates lib fs).holds_history
      (fs.map frame.sx).reverse (fs.map frame.sy).reverse := by
  induction fs using List.reverseRecOn with
  | nil => exact state.init_holds_history lib cam spawn look
  | append_singleton fs f ih =>
    have := state.update_holds_history lib _ f _ _ ih
    simpa [state.updates, List.foldl_append] using this

theorem state.offsets_of_history (s : state) (f : frame) (hx hy : List ℚ)
    (h : s.holds_history hx hy) :
    s.offsets f = (mean_of_last_four (f.sx :: hx), mean_of_last_four (f.sy :: hy)) := by
  obtain ⟨_, hrx, hry⟩ := h
  have ax := ring_holds_average _ _ _ _ _ _ (ring_holds_set s._x s._frame_count _ _ _ _ f.sx hrx)
  have ay := ring_holds_average _ _ _ _ _ _ (ring_holds_set s._y s._frame_count _ _ _ _ f.sy hry)
  simp only [state.offsets, state.store_sample, _frame_average, mean_of_last_four,
    List.getD_cons_zero, List.getD_cons_succ]
  rw [← ax, ← ay]
  rfl

/-- C9: from a freshly constructed state, the offsets computed by the update of frame
f after the frames fs are, in x and in y, the mean of the four newest samples
0.25 * (cursor - size / 2) of fs followed by f, frames before the first counting as 0;
these are the averages of the buffers the call leaves behind; the sample is the signed
difference (negative left of or above the centre); and after at least three earlier
frames the offsets depend on the last four frames only. -/
theorem state.offsets_are_mean_of_last_four (lib : min_lib) (cam : camera)
    (spawn look : vec3) (fs : List frame) (f : frame) :
    ((state.init lib cam spawn look).updates lib fs).offsets f
      = (mean_of_last_four ((fs ++ [f]).map frame.sx).reverse,
         mean_of_last_four ((fs ++ [f]).map frame.sy).reverse) ∧
    (state.average ((state.init lib cam spawn look).updates lib (fs ++ [f]))._x,
      state.average ((state.init lib cam spawn look).updates lib (fs ++ [f]))._y)
      = ((state.init lib cam spawn look).updates lib fs).offsets f ∧
    (f.sx = (1 / 4 : ℚ) * ((f.c.1 : ℚ) - ((f.w / 2 : Nat) : ℚ)) ∧
      f.sy = (1 / 4 : ℚ) * ((f.c.2 : ℚ) - ((f.h / 2 : Nat) : ℚ))) ∧
    (f.c.1 < f.w / 2 → f.sx < 0) ∧
    (f.c.2 < f.h / 2 → f.sy < 0) ∧
    (∀ f1 f2 f3 : frame,
      ((state.init lib cam spawn look).updates lib (fs ++ [f1, f2, f3])).offsets f
        = ((f.sx + f3.sx + f2.sx + f1.sx) / 4, (f.sy + f3.sy + f2.sy + f1.sy) / 4)) := by
  have key : ∀ gs : List frame,
      ((state.init lib cam spawn look).updates lib gs).offsets f
        = (mean_of_last_four ((gs ++ [f]).map frame.sx).reverse,
           mean_of_last_four ((gs ++ [f]).map frame.sy).reverse) := by
    intro gs
    rw [state.offsets_of_history _ f _ _ (state.updates_holds_history lib cam spawn look gs)]
    simp
  have hneg : ∀ c w : Nat, c < w / 2 → state.sample c w < 0 := by
    intro c w hc
    have h1 : ((c : Int) - ((w / 2 : Nat) : Int) : Int) < 0 := by omega
    have h2 : ((((c : Int) - ((w / 2 : Nat) : Int) : Int)) : ℚ) < 0 := by exact_mod_cast h1
    unfold state.sample
    linarith
  refine ⟨key fs, ?_, ⟨?_, ?_⟩, hneg _ _, hneg _ _, ?_⟩
  · have h := state.updates_holds_history lib cam spawn look fs
    obtain ⟨h1, h2, h3, h4⟩ := state.update_not_tracking lib _ f h.1
    simp only [state.updates, List.foldl_append, List.foldl_cons, List.foldl_nil]
    simp only [state.updates] at h3 h4
    rw [h3, h4]
    rfl
  · simp only [frame.sx, state.sample, Int.cast_sub, Int.cast_natCast]
  · simp only [frame.sy, state.sample, Int.cast_sub, Int.cast_natCast]
  · intro f1 f2 f3
    rw [key]
    simp [mean_of_last_four]

/-- C9, for a cursor at (100, 300) in a 720 by 480 window: the horizontal sample is
negative. -/
theorem state.offsets_are_mean_of_last_four_witness :
    (⟨⟨0, 0, 0⟩, (100, 300), 720, 480⟩ : frame).sx < 0 :=
  (state.offsets_are_mean_of_last_four sample_lib sample_camera ⟨0, 2, 0⟩ ⟨1, 2, 0⟩ []
    ⟨⟨0, 0, 0⟩, (100, 300), 720, 480⟩).2.2.2.1 (by decide)

/-! ### The binding table -/

namespace controls

/-- C10: register_control_callbacks clears the keyboard first (the result does not
depend on the old keyboard), then watches exactly the 23 keys F1-F4, ESCAPE, Q, W, S,
A, D, E, Z, X, C, 1-8, SPACE, each once; the keys with a key-down or per-frame handler
are exactly the watched keys, one handler each; W, S, A, D get the per-frame handlers
forward, back, left, right and every other watched key a plain key-down handler;
exactly the keys 1-8 get a key-up handler; and the four mouse handlers and the resize
handler are registered with the controls object as the callback data. -/
theorem register_control_callbacks_table (g : Game) (k : keyboard) :
    (register_control_callbacks g).window.keyboard = register_keyboard k ∧
    (register_keyboard k).keys
      = [.F1, .F2, .F3, .F4, .ESCAPE, .KEYQ, .KEYW, .KEYS, .KEYA, .KEYD, .KEYE, .KEYZ,
         .KEYX, .KEYC, .KEY1, .KEY2, .KEY3, .KEY4, .KEY5, .KEY6, .KEY7, .KEY8, .SPACE] ∧
    (register_keyboard k).keys.length = 23 ∧
    (register_keyboard k).keys.Nodup ∧
    (register_keyboard k).keys.Perm
      (((register_keyboard k).keydown ++ (register_keyboard k).keydown_per_frame).map
        binding.key) ∧
    (register_keyboard k).keydown_per_frame
      = [⟨.KEYW, .forward, .controls⟩, ⟨.KEYS, .back, .controls⟩,
         ⟨.KEYA, .left, .controls⟩, ⟨.KEYD, .right, .controls⟩] ∧
    (register_keyboard k).keydown.map binding.key
      = [.F1, .F2, .F3, .F4, .ESCAPE, .KEYQ, .KEYE, .KEYZ, .KEYX, .KEYC,
         .KEY1, .KEY2, .KEY3, .KEY4, .KEY5, .KEY6, .KEY7, .KEY8, .SPACE] ∧
    (register_keyboard k).keyup.map binding.key
      = [.KEY1, .KEY2, .KEY3, .KEY4, .KEY5, .KEY6, .KEY7, .KEY8] ∧
    (register_control_callbacks g).window.data = some .controls ∧
    (register_control_callbacks g).window.lclick_down = some .left_click_down ∧
    (register_control_callbacks g).window.lclick_up = some .left_click_up ∧
    (register_control_callbacks g).window.rclick_down = some .right_click_down ∧
    (register_control_callbacks g).window.rclick_up = some .right_click_up ∧
    (register_control_callbacks g).window.update = some .on_resize := by
  have hk : register_keyboard k = register_keyboard ⟨[], [], [], []⟩ := rfl
  rw [hk]
  refine ⟨rfl, rfl, rfl, by decide, by decide, rfl, rfl, rfl, rfl, rfl, rfl, rfl, rfl, rfl⟩

end controls

/-! ### Save and load -/

theorem read_le_at (le : le_float) (pre post : List Nat) (x : ℚ)
    (hx : le.read (le.write x) = x) :
    read_le le (pre ++ (le.write x ++ post)) pre.length = (x, pre.length + 4) := by
  have h4 : (le.write x ++ post).take 4 = le.write x := by
    rw [List.take_append_of_le_length (le_of_eq (le.size x).symm)]
    exact List.take_of_length_le (le_of_eq (le.size x))
  simp [read_le, h4, hx]

/-- C11: save_game writes the six floats position x, y, z, look x, y, z in that
order, 24 bytes in all; load_game on a non-empty stream reads six floats at the
offsets 0, 4, 8, 12, 16, 20 in that same order; so, when reading back what was written
returns the value for the six saved values, loading the saved stream loads the
character at the saved position p with the flag true and puts the camera at
p + (0, 1, 0) looking at the saved look point. -/
theorem mglcraft.save_then_load (lib : min_lib) (le : le_float) (m m2 : mglcraft)
    (h : ∀ x ∈ [m.character_position.x, m.character_position.y, m.character_position.z,
        (lib.project_point m._cam 3).x, (lib.project_point m._cam 3).y,
        (lib.project_point m._cam 3).z], le.read (le.write x) = x) :
    m.save_game lib le
      = le.write m.character_position.x ++ le.write m.character_position.y ++
        le.write m.character_position.z ++ le.write (lib.project_point m._cam 3).x ++
        le.write (lib.project_point m._cam 3).y ++ le.write (lib.project_point m._cam 3).z ∧
    (m.save_game lib le).length = 24 ∧
    (∀ stream : List Nat, stream ≠ [] →
      m2.load_game le stream
        = (m2.character_load
            ⟨le.read ((stream.drop 0).take 4), le.read ((stream.drop 4).take 4),
              le.read ((stream.drop 8).take 4)⟩ true).load_camera
            ⟨le.read ((stream.drop 0).take 4), le.read ((stream.drop 4).take 4),
              le.read ((stream.drop 8).take 4)⟩
            ⟨le.read ((stream.drop 12).take 4), le.read ((stream.drop 16).take 4),
              le.read ((stream.drop 20).take 4)⟩) ∧
    (m2.load_game le (m.save_game lib le)).character_loads
      = m2.character_loads ++ [(m.character_position, true)] ∧
    (m2.load_game le (m.save_game lib le))._cam.position
      = m.character_position.add ⟨0, 1, 0⟩ ∧
    (m2.load_game le (m.save_game lib le))._cam.look_at = lib.project_point m._cam 3 := by
  have hs : m.save_game lib le
      = le.write m.character_position.x ++ le.write m.character_position.y ++
        le.write m.character_position.z ++ le.write (lib.project_point m._cam 3).x ++
        le.write (lib.project_point m._cam 3).y ++ le.write (lib.project_point m._cam 3).z := by
    simp [mglcraft.save_game, write_le]
  have hl : (m.save_game lib le).length = 24 := by
    simp [hs, le.size]
  have hload : ∀ stream : List Nat, stream ≠ [] →
      m2.load_game le stream
        = (m2.character_load
            ⟨le.read ((stream.drop 0).take 4), le.read ((stream.drop 4).take 4),
              le.read ((stream.drop 8).take 4)⟩ true).load_camera
            ⟨le.read ((stream.drop 0).take 4), le.read ((stream.drop 4).take 4),
              le.read ((stream.drop 8).take 4)⟩
            ⟨le.read ((stream.drop 12).take 4), le.read ((stream.drop 16).take 4),
              le.read ((stream.drop 20).take 4)⟩ := by
    intro stream hne
    have : stream.length ≠ 0 := by simpa using hne
    simp [mglcraft.load_game, this, read_le]
  have hne : m.save_game lib le ≠ [] := by
    intro h0
    rw [h0] at hl
    simp at hl
  simp only [List.mem_cons, List.mem_singleton, List.not_mem_nil, or_false,
    forall_eq_or_imp, forall_eq] at h
  obtain ⟨h1, h2, h3, h4, h5, h6⟩ := h
  have r1 := read_le_at le [] (le.write m.character_position.y ++
    (le.write m.character_position.z ++ (le.write (lib.project_point m._cam 3).x ++
    (le.write (lib.project_point m._cam 3).y ++ le.write (lib.project_point m._cam 3).z))))
    _ h1
  have r2 := read_le_at le (le.write m.character_position.x)
    (le.write m.character_position.z ++ (le.write (lib.project_point m._cam 3).x ++
    (le.write (lib.project_point m._cam 3).y ++ le.write (lib.project_point m._cam 3).z)))
    _ h2
  have r3 := read_le_at le (le.write m.character_position.x ++ le.write m.character_position.y)
    (le.write (lib.project_point m._cam 3).x ++
    (le.write (lib.project_point m._cam 3).y ++ le.write (lib.project_point m._cam 3).z))
    _ h3
  have r4 := read_le_at le (le.write m.character_position.x ++ le.write m.character_position.y
    ++ le.write m.character_position.z)
    (le.write (lib.project_point m._cam 3).y ++ le.write (lib.project_point m._cam 3).z)
    _ h4
  have r5 := read_le_at le (le.write m.character_position.x ++ le.write m.character_position.y
    ++ le.write m.character_position.z ++ le.write (lib.project_point m._cam 3).x)
    (le.write (lib.project_point m._cam 3).z)
    _ h5
  have r6 := read_le_at le (le.write m.character_position.x ++ le.write m.character_position.y
    ++ le.write m.character_position.z ++ le.write (lib.project_point m._cam 3).x
    ++ le.write (lib.project_point m._cam 3).y) []
    _ h6
  simp only [read_le, List.length_append, le.size, List.length_nil, List.append_assoc,
    List.nil_append, List.append_nil, Prod.mk.injEq, Nat.reduceAdd, and_true] at r1 r2 r3 r4 r5 r6
  refine ⟨hs, hl, hload, ?_, ?_, ?_⟩ <;>
    rw [hload _ hne] <;>
    simp only [hs, List.append_assoc, r1, r2, r3, r4, r5, r6, mglcraft.character_load,
      mglcraft.load_camera, camera.set_position, camera.set_look_at]

/-- C11, for the sample layout: the character saved at (5, 2, 7) with the camera
looking at (0, 0, 3) is loaded back at (5, 2, 7). -/
theorem mglcraft.save_then_load_witness :
    (sample_mglcraft.load_game sample_le
        (sample_mglcraft.save_game sample_lib sample_le)).character_loads
      = [(⟨5, 2, 7⟩, true)] :=
  (mglcraft.save_then_load sample_lib sample_le sample_mglcraft sample_mglcraft
    (by
      simp only [sample_mglcraft, sample_lib, sample_camera, vec3.add, vec3.scale]
      norm_num
      decide)).2.2.2.1

/-! ### Clicks, branch by branch -/

namespace controls

/-- C12: in edit mode, for a player that is not dead-and-unlocked, left_click_up is
the block placement alone: it asks will_consume(10) and, exactly when that succeeds,
adds a block along the ray from the camera to the point 3.0 ahead; these are the only
calls, so nothing is exploded, launched or scanned, no cooldown starts and nothing is
unlocked, whether or not the gun is active or the skill locked. -/
theorem left_click_up_edit_mode_places_block (lib : min_lib) (g : Game)
    (he : g.world.get_edit_mode = true)
    (hd : ¬ (g.play.is_dead = true ∧ g.skill.is_locked = false)) :
    left_click_up lib g = place_block lib g ∧
    (left_click_up lib g).calls_since g
      = .skill_will_consume 10 ::
          (if g.skill.will_consume 10 = true then
            [.world_add_block ⟨g.camera.position, lib.project_point g.camera 3⟩]
          else []) ∧
    (left_click_up lib g).skill = g.skill ∧
    (left_click_up lib g).state = g.state ∧
    (left_click_up lib g).play = g.play := by
  have hc : (g.play.is_dead && !g.skill.is_locked) = false := by
    cases h1 : g.play.is_dead <;> cases h2 : g.skill.is_locked <;> simp_all
  have h0 : left_click_up lib g = place_block lib g := by
    simp [left_click_up, hc, he]
  rw [h0]
  cases hw : g.skill.will_consume 10 <;>
    simp [place_block, skill_will_consume, _block_cost, hw, Game.calls_since, Game.call,
      camera_ray, _project_dist]

/-- C12, for the sample game in edit mode (energy for 10): the release asks
will_consume(10) and adds the block along the camera ray. -/
theorem left_click_up_edit_mode_places_block_witness :
    (left_click_up sample_lib sample_edit_game).calls_since sample_edit_game
      = [.skill_will_consume 10,
         .world_add_block ⟨sample_camera.position, sample_lib.project_point sample_camera 3⟩] :=
  ((left_click_up_edit_mode_places_block sample_lib sample_edit_game rfl
    (by decide)).2.1).trans (by norm_num [sample_edit_game, sample_game, sample_skills])

end controls

namespace controls

/-- C13: for a living player with the gun active and beam the one current mode,
left_click_down plays the charge sound, starts the charge and locks the skill exactly
when the skill is off cooldown and can_consume(20) holds; in every other case the
game (the skills included) is left as it was; and in no case does the press make a
consume or will_consume call. -/
theorem left_click_down_beam_press (lib : min_lib) (g : Game)
    (hd : g.play.is_dead = false) (ha : g.skill.is_gun_active = true)
    (hm : g.skill.modes = (true, false, false, false, false)) :
    ((g.skill.is_off_cooldown = true ∧ g.skill.can_consume 20 = true) →
      left_click_down lib g
        = skill_lock ((g.call .sound_play_charge).call .skill_start_charge) ∧
      (left_click_down lib g).calls_since g
        = [.sound_play_charge, .skill_start_charge, .skill_lock] ∧
      (left_click_down lib g).skill.is_locked = true) ∧
    (¬ (g.skill.is_off_cooldown = true ∧ g.skill.can_consume 20 = true) →
      left_click_down lib g = g) ∧
    (Call.skill_start_charge ∈ (left_click_down lib g).calls_since g ↔
      (g.skill.is_off_cooldown = true ∧ g.skill.can_consume 20 = true)) ∧
    (Call.skill_lock ∈ (left_click_down lib g).calls_since g ↔
      (g.skill.is_off_cooldown = true ∧ g.skill.can_consume 20 = true)) ∧
    ((left_click_down lib g).calls_since g).filter Call.is_consume = [] := by
  simp only [skills.modes, Prod.mk.injEq] at hm
  obtain ⟨h1, h2, h3, h4, h5⟩ := hm
  cases hc : g.skill.is_off_cooldown <;> cases he : g.skill.can_consume 20 <;>
    simp [left_click_down, Game.calls_since, skill_lock, Game.call, _beam_charge_cost,
      Call.is_consume, *]

/-- C13, for the sample game (beam mode, off cooldown, energy for 20): the press
starts the charge and locks. -/
theorem left_click_down_beam_press_witness :
    (left_click_down sample_lib sample_game).calls_since sample_game
      = [.sound_play_charge, .skill_start_charge, .skill_lock] :=
  ((left_click_down_beam_press sample_lib sample_game rfl rfl rfl).1
    ⟨rfl, by norm_num [sample_game, sample_skills]⟩).2.1

/-- C14: for a living player with the gun active and grapple the one current mode,
left_click_down fires the hook only when can_consume(10) holds; when the hook hits it
consumes exactly 10, starts the grapple animation at the hit point, plays the sound
and locks; when can_consume(10) fails nothing at all happens, and when the hook misses
only the hook_set call is recorded: no energy is consumed and the skills are as
before. -/
theorem left_click_down_grapple_press (lib : min_lib) (g : Game)
    (hd : g.play.is_dead = false) (ha : g.skill.is_gun_active = true)
    (hm : g.skill.modes = (false, false, true, false, false)) :
    (∀ point, g.skill.can_consume 10 = true →
      g.world.hook_set (camera_ray lib g) = some point →
      (left_click_down lib g).calls_since g
        = [.world_hook_set (camera_ray lib g), .skill_consume 10,
           .character_set_animation_grapple point, .sound_play_grapple, .skill_lock] ∧
      (left_click_down lib g).skill.is_locked = true) ∧
    (g.skill.can_consume 10 = false → left_click_down lib g = g) ∧
    (g.skill.can_consume 10 = true → g.world.hook_set (camera_ray lib g) = none →
      (left_click_down lib g).calls_since g = [.world_hook_set (camera_ray lib g)] ∧
      (left_click_down lib g).skill = g.skill) ∧
    ((Call.skill_consume 10 ∈ (left_click_down lib g).calls_since g ∧
        Call.skill_lock ∈ (left_click_down lib g).calls_since g) ↔
      (g.skill.can_consume 10 = true ∧
        (g.world.hook_set (camera_ray lib g)).isSome = true)) ∧
    (¬ (g.skill.can_consume 10 = true ∧
        (g.world.hook_set (camera_ray lib g)).isSome = true) →
      ((left_click_down lib g).calls_since g).filter Call.is_consume = [] ∧
      (left_click_down lib g).skill = g.skill) := by
  simp only [skills.modes, Prod.mk.injEq] at hm
  obtain ⟨h1, h2, h3, h4, h5⟩ := hm
  cases he : g.skill.can_consume 10 <;> cases hh : g.world.hook_set (camera_ray lib g) <;>
    simp [left_click_down, fire_grapple, world_hook_set, Game.calls_since, skill_lock,
      Game.call, _grapple_cost, Call.is_consume, *]

/-- C14, for the sample game in grapple mode (energy for 10, the hook hits (1, 2, 3)):
the press consumes 10 and locks. -/
theorem left_click_down_grapple_press_witness :
    (left_click_down sample_lib sample_grapple_game).calls_since sample_grapple_game
      = [.world_hook_set (camera_ray sample_lib sample_grapple_game), .skill_consume 10,
         .character_set_animation_grapple ⟨1, 2, 3⟩, .sound_play_grapple, .skill_lock] :=
  ((left_click_down_grapple_press sample_lib sample_grapple_game rfl rfl rfl).1 ⟨1, 2, 3⟩
    (by norm_num [sample_grapple_game, sample_game, sample_skills]) rfl).1

end controls

namespace controls

/-- C15: with edit mode off, the gun active and locked and is_beam_charged true,
left_click_up aborts the shoot animation, explodes along the camera ray with radius
(3, 3, 3), then, exactly when explode_block returned a value of at least 0, consumes
20, plays the shoot animation and starts the cooldown; in both cases it then stops the
charge sound and calls unlock_beam. -/
theorem left_click_up_charged_beam (lib : min_lib) (g : Game)
    (he : g.world.get_edit_mode = false) (ha : g.skill.is_gun_active = true)
    (hl : g.skill.is_locked = true) (hc : g.skill.is_beam_charged = true) :
    (left_click_up lib g).calls_since g
      = [.character_abort_animation_shoot,
         .world_explode_block_radius (camera_ray lib g) (3, 3, 3)] ++
        (if g.world.explode_block_radius (camera_ray lib g) (3, 3, 3) ≥ 0 then
          [.skill_consume 20, .character_set_animation_shoot, .skill_start_cooldown]
        else []) ++
        [.sound_stop_charge, .skill_unlock_beam] ∧
    (Call.skill_start_cooldown ∈ (left_click_up lib g).calls_since g ↔
      g.world.explode_block_radius (camera_ray lib g) (3, 3, 3) ≥ 0) ∧
    (Call.skill_consume 20 ∈ (left_click_up lib g).calls_since g ↔
      g.world.explode_block_radius (camera_ray lib g) (3, 3, 3) ≥ 0) := by
  have h0 : left_click_up lib g
      = release_charged_beam (camera_ray lib g) (g.call .character_abort_animation_shoot) := by
    simp [left_click_up, release, he, ha, hl, hc, Game.call]
  rw [h0]
  by_cases hv : g.world.explode_block_radius (camera_ray lib g) (3, 3, 3) ≥ 0 <;>
    simp [release_charged_beam, world_explode_block_radius, Game.calls_since,
      skill_unlock_beam, skill_unlock, Game.call, _beam_charge_cost, hv]

/-- C15, for the sample game holding a charged beam (explode_block answers 1): the
release consumes 20 and starts the cooldown before it unlocks. -/
theorem left_click_up_charged_beam_witness :
    Call.skill_start_cooldown ∈
      (left_click_up sample_lib sample_charged_game).calls_since sample_charged_game :=
  (left_click_up_charged_beam sample_lib sample_charged_game rfl rfl rfl rfl).2.1.2
    (by decide)

/-- C16: with edit mode off, the gun active and locked in beam mode and is_beam_charged
false, left_click_up aborts the shoot animation, calls explode_block only when
can_consume(10) holds, consumes 10 (with the shoot animation and the shot sound)
exactly when in addition the block id returned is at least 0, never starts the
cooldown, and always stops the charge sound and calls unlock_beam. -/
theorem left_click_up_uncharged_beam (lib : min_lib) (g : Game)
    (he : g.world.get_edit_mode = false) (ha : g.skill.is_gun_active = true)
    (hl : g.skill.is_locked = true) (hc : g.skill.is_beam_charged = false)
    (hb : g.skill.is_beam_mode = true) :
    (left_click_up lib g).calls_since g
      = [.character_abort_animation_shoot] ++
        (if g.skill.can_consume 10 = true then
          [.world_explode_block (camera_ray lib g) 20] ++
          (if g.world.explode_block (camera_ray lib g) 20 ≥ 0 then
            [.skill_consume 10, .character_set_animation_shoot, .sound_play_shot]
          else [])
        else []) ++
        [.sound_stop_charge, .skill_unlock_beam] ∧
    (Call.skill_consume 10 ∈ (left_click_up lib g).calls_since g ↔
      (g.skill.can_consume 10 = true ∧ g.world.explode_block (camera_ray lib g) 20 ≥ 0)) ∧
    (g.skill.can_consume 10 = false →
      Call.world_explode_block (camera_ray lib g) 20 ∉ (left_click_up lib g).calls_since g) ∧
    Call.skill_start_cooldown ∉ (left_click_up lib g).calls_since g ∧
    Call.skill_unlock_beam ∈ (left_click_up lib g).calls_since g := by
  have h0 : left_click_up lib g
      = release_beam (camera_ray lib g) (g.call .character_abort_animation_shoot) := by
    simp [left_click_up, release, he, ha, hl, hc, hb, Game.call]
  rw [h0]
  cases hk : g.skill.can_consume 10 <;>
    by_cases hv : g.world.explode_block (camera_ray lib g) 20 ≥ 0 <;>
    simp [release_beam, world_explode_block, Game.calls_since,
      skill_unlock_beam, skill_unlock, Game.call, _beam_cost, hk, hv]

/-- C16, for the sample game with the beam locked (energy for 10, explode_block answers
1): the release consumes 10. -/
theorem left_click_up_uncharged_beam_witness :
    Call.skill_consume 10 ∈
      (left_click_up sample_lib sample_locked_game).calls_since sample_locked_game :=
  (left_click_up_uncharged_beam sample_lib sample_locked_game rfl rfl rfl rfl rfl).2.1.2
    ⟨by norm_num [sample_locked_game, sample_game, sample_skills], by decide⟩

end controls

namespace controls

/-- C17: with missile the one current mode (and is_beam_charged only in beam mode), the
press of a living player with the gun active locks the skill exactly when the skill is
off cooldown, whatever the energy checks would answer, and consumes nothing; the
release with the skill locked, outside edit mode and with the gun active, asks
will_consume(20), calls launch_missile only when that succeeded, plays the shoot
animation and starts the cooldown exactly when it succeeded and launch_missile
returned true, and always calls unlock_missile; in edit mode or with the gun inactive
the release neither launches nor starts the cooldown. -/
theorem missile_press_and_release (lib : min_lib) (g : Game)
    (hm : g.skill.modes = (false, true, false, false, false))
    (hb : g.skill.is_beam_charged = true → g.skill.is_beam_mode = true) :
    (g.play.is_dead = false → g.skill.is_gun_active = true →
      left_click_down lib g = (if g.skill.is_off_cooldown = true then skill_lock g else g) ∧
      (Call.skill_lock ∈ (left_click_down lib g).calls_since g ↔
        g.skill.is_off_cooldown = true) ∧
      ((left_click_down lib g).calls_since g).filter Call.is_consume = []) ∧
    (g.skill.is_locked = true → g.world.get_edit_mode = false →
      g.skill.is_gun_active = true →
      (left_click_up lib g).calls_since g
        = [.character_abort_animation_shoot, .skill_will_consume 20] ++
          (if g.skill.will_consume 20 = true then
            [.world_launch_missile (camera_ray lib g)] ++
            (if g.world.launch_missile (camera_ray lib g) = true then
              [.character_set_animation_shoot, .skill_start_cooldown]
            else [])
          else []) ++
          [.skill_unlock_missile] ∧
      (Call.world_launch_missile (camera_ray lib g) ∈ (left_click_up lib g).calls_since g ↔
        g.skill.will_consume 20 = true) ∧
      (Call.skill_start_cooldown ∈ (left_click_up lib g).calls_since g ↔
        (g.skill.will_consume 20 = true ∧
          g.world.launch_missile (camera_ray lib g) = true)) ∧
      (Call.character_set_animation_shoot ∈ (left_click_up lib g).calls_since g ↔
        (g.skill.will_consume 20 = true ∧
          g.world.launch_missile (camera_ray lib g) = true))) ∧
    (g.skill.is_locked = true →
      (g.world.get_edit_mode = true ∨ g.skill.is_gun_active = false) →
      Call.world_launch_missile (camera_ray lib g) ∉ (left_click_up lib g).calls_since g ∧
      Call.skill_start_cooldown ∉ (left_click_up lib g).calls_since g) := by
  simp only [skills.modes, Prod.mk.injEq] at hm
  obtain ⟨h1, h2, h3, h4, h5⟩ := hm
  have hc : g.skill.is_beam_charged = false := by
    cases hc : g.skill.is_beam_charged
    · rfl
    · rw [hb hc] at h1; exact absurd h1 (by decide)
  refine ⟨?_, ?_, ?_⟩
  · intro hd ha
    cases ho : g.skill.is_off_cooldown <;>
      simp [left_click_down, Game.calls_since, skill_lock, Game.call, Call.is_consume, *]
  · intro hl he ha
    have h0 : left_click_up lib g
        = release_missile (camera_ray lib g) (g.call .character_abort_animation_shoot) := by
      simp [left_click_up, release, he, ha, hl, hc, h1, h2, h3, Game.call]
    rw [h0]
    cases hw : g.skill.will_consume 20 <;>
      cases hq : g.world.launch_missile (camera_ray lib g) <;>
      simp [release_missile, skill_will_consume, world_launch_missile, Game.calls_since,
        skill_unlock_missile, skill_unlock, Game.call, _missile_cost, hw, hq]
  · intro hl hor
    rcases hor with he | ha
    · cases hw : g.skill.will_consume 10 <;>
        simp [left_click_up, place_block, skill_will_consume, _block_cost, hl, he, hw,
          Game.calls_since, Game.call]
    · cases he : g.world.get_edit_mode
      · simp [left_click_up, hl, he, ha, Game.calls_since]
      · cases hw : g.skill.will_consume 10 <;>
          simp [left_click_up, place_block, skill_will_consume, _block_cost, hl, he, hw,
            Game.calls_since, Game.call]

/-- C17, for the sample game holding the missile (energy for 20, the launch succeeds):
the release starts the cooldown. -/
theorem missile_press_and_release_witness :
    Call.skill_start_cooldown ∈
      (left_click_up sample_lib sample_missile_game).calls_since sample_missile_game :=
  ((missile_press_and_release sample_lib sample_missile_game rfl (fun h => nomatch h)).2.1
    rfl rfl rfl).2.2.1.2 ⟨by norm_num [sample_missile_game, sample_game, sample_skills], rfl⟩

end controls

namespace controls

/-- C18: when the player is dead, left_click_down and right_click_down are the single
call state.set_respawn(true): the respawn flag of the state becomes true and nothing
else changes, neither in the state (tracking flag and target included) nor in the
skills, the player (jet included), the world, the camera, the window or the console. -/
theorem dead_click_signals_respawn (lib : min_lib) (g : Game)
    (hd : g.play.is_dead = true) :
    left_click_down lib g = state_set_respawn true g ∧
    right_click_down lib g = state_set_respawn true g ∧
    (state_set_respawn true g).state = { g.state with _respawn := true } ∧
    (state_set_respawn true g).state._fix_target = g.state._fix_target ∧
    (state_set_respawn true g).state._target = g.state._target ∧
    (state_set_respawn true g).skill = g.skill ∧
    (state_set_respawn true g).play = g.play ∧
    (state_set_respawn true g).world = g.world ∧
    (state_set_respawn true g).camera = g.camera ∧
    (state_set_respawn true g).window = g.window ∧
    (state_set_respawn true g).console = g.console ∧
    (state_set_respawn true g).calls = g.calls ++ [.state_set_respawn true] := by
  refine ⟨?_, ?_, rfl, rfl, rfl, rfl, rfl, rfl, rfl, rfl, rfl, rfl⟩
  · simp [left_click_down, hd]
  · simp [right_click_down, hd]

/-- C18, for the dead sample player: the left click records set_respawn(true) and
nothing else. -/
theorem dead_click_signals_respawn_witness :
    (left_click_down sample_lib sample_dead_game).calls = [.state_set_respawn true] :=
  congrArg Game.calls (dead_click_signals_respawn sample_lib sample_dead_game rfl).1

theorem place_block_with_dead (lib : min_lib) (g : Game) (b : Bool) :
    place_block lib (g.with_dead b) = (place_block lib g).with_dead b := by
  simp only [place_block, skill_will_consume, Game.with_dead, Game.call, camera_ray]
  split_ifs <;> rfl

theorem release_blocks_with_dead (r : ray) (g : Game) (b : Bool) :
    release_charged_beam r (g.with_dead b) = (release_charged_beam r g).with_dead b ∧
    release_beam r (g.with_dead b) = (release_beam r g).with_dead b ∧
    release_grapple (g.with_dead b) = (release_grapple g).with_dead b ∧
    release_missile r (g.with_dead b) = (release_missile r g).with_dead b ∧
    release_jetpack (g.with_dead b) = (release_jetpack g).with_dead b ∧
    release_scan r (g.with_dead b) = (release_scan r g).with_dead b := by
  refine ⟨?_, ?_, rfl, ?_, rfl, rfl⟩
  · simp only [release_charged_beam, world_explode_block_radius, skill_unlock_beam,
      skill_unlock, Game.with_dead, Game.call]
    split_ifs <;> rfl
  · simp only [release_beam, world_explode_block, skill_unlock_beam,
      skill_unlock, Game.with_dead, Game.call]
    split_ifs <;> rfl
  · simp only [release_missile, skill_will_consume, world_launch_missile,
      skill_unlock_missile, skill_unlock, Game.with_dead, Game.call]
    split_ifs <;> rfl

theorem release_with_dead (r : ray) (g : Game) (b : Bool) :
    release r (g.with_dead b) = (release r g).with_dead b := by
  obtain ⟨h1, h2, h3, h4, h5, h6⟩ := release_blocks_with_dead r g b
  have e1 : (g.with_dead b).skill = g.skill := rfl
  simp only [release, e1, h1, h2, h3, h4, h5, h6]
  split_ifs <;> rfl

theorem left_click_up_with_dead (lib : min_lib) (g : Game) (b : Bool)
    (hl : g.skill.is_locked = true) :
    left_click_up lib (g.with_dead b) = (left_click_up lib (g.with_dead false)).with_dead b := by
  have e1 : ∀ (c : Bool) (x : Game), (x.with_dead c).skill = x.skill := fun _ _ => rfl
  have e2 : ∀ (c : Bool) (x : Game), (x.with_dead c).world = x.world := fun _ _ => rfl
  have e3 : ∀ c : Bool, camera_ray lib (g.with_dead c) = camera_ray lib g := fun _ => rfl
  have e4 : ∀ (c : Bool) (k : Call), ((g.with_dead c).call k) = (g.call k).with_dead c :=
    fun _ _ => rfl
  have e5 : ∀ (k : Call), (g.call k).skill = g.skill := fun _ => rfl
  have e6 : ∀ x : Game, (x.with_dead false).with_dead b = x.with_dead b := fun _ => rfl
  simp only [left_click_up, e1, e2, e3, e4, e5, hl, Bool.not_true, Bool.and_false,
    Bool.false_eq_true, if_false, if_true, place_block_with_dead, release_with_dead]
  split_ifs <;> simp only [e6]

theorem release_unlocks (r : ray) (g : Game)
    (hm : g.skill.is_beam_charged = true ∨ g.skill.is_beam_mode = true ∨
      g.skill.is_grapple_mode = true ∨ g.skill.is_missile_mode = true ∨
      g.skill.is_jetpack_mode = true ∨ g.skill.is_scan_mode = true) :
    (release r g).skill.is_locked = false := by
  have u : ∀ (c : Call) (x : Game), (skill_unlock c x).skill.is_locked = false :=
    fun _ _ => rfl
  simp only [release]
  split_ifs with h1 h2 h3 h4 h5 h6
  · exact u _ _
  · exact u _ _
  · exact u _ _
  · exact u _ _
  · exact u _ _
  · exact u _ _
  · simp_all

theorem left_click_up_keeps_lock (lib : min_lib) (g : Game)
    (hl : g.skill.is_locked = true)
    (hor : g.world.get_edit_mode = true ∨ g.skill.is_gun_active = false) :
    (left_click_up lib g).skill.is_locked = true ∧
    (left_click_up lib g).play.is_jet = g.play.is_jet := by
  rcases hor with he | ha
  · cases hw : g.skill.will_consume 10 <;>
      simp [left_click_up, place_block, skill_will_consume, _block_cost, hl, he, hw,
        Game.call]
  · cases he : g.world.get_edit_mode
    · simp [left_click_up, hl, he, ha]
    · cases hw : g.skill.will_consume 10 <;>
        simp [left_click_up, place_block, skill_will_consume, _block_cost, hl, he, hw,
          Game.call]

/-- C19 (as the code has it): when the player is dead and the skill is not locked,
left_click_up and right_click_up leave the game exactly as it was; when the player is
dead and the skill is locked, both give what they give for the living player in the
same state (only the dead flag differs), so right_click_up still aborts the tracking,
and left_click_up still releases the lock when edit mode is off, the gun is active
and a mode is current, whereas in edit mode or with the gun inactive it leaves the
skill locked and the jet as it is. -/
theorem dead_release_as_living_when_locked (lib : min_lib) (g : Game)
    (hd : g.play.is_dead = true) :
    (g.skill.is_locked = false → left_click_up lib g = g ∧ right_click_up g = g) ∧
    (g.skill.is_locked = true →
      left_click_up lib g = (left_click_up lib (g.with_dead false)).with_dead true ∧
      right_click_up g = (right_click_up (g.with_dead false)).with_dead true ∧
      right_click_up g = state_abort_tracking g ∧
      (right_click_up g).state._fix_target = false ∧
      (g.world.get_edit_mode = false → g.skill.is_gun_active = true →
        (g.skill.is_beam_charged = true ∨ g.skill.is_beam_mode = true ∨
          g.skill.is_grapple_mode = true ∨ g.skill.is_missile_mode = true ∨
          g.skill.is_jetpack_mode = true ∨ g.skill.is_scan_mode = true) →
        (left_click_up lib g).skill.is_locked = false) ∧
      ((g.world.get_edit_mode = true ∨ g.skill.is_gun_active = false) →
        (left_click_up lib g).skill.is_locked = true ∧
        (left_click_up lib g).play.is_jet = g.play.is_jet)) := by
  have hg : g.with_dead true = g := by
    obtain ⟨w, c, s, k, ⟨d, j, hp⟩, wo, co, dm, gm, cs⟩ := g
    simp only at hd
    subst hd
    rfl
  constructor
  · intro hl
    simp [left_click_up, right_click_up, hd, hl]
  · intro hl
    have hu := left_click_up_with_dead lib g true hl
    rw [hg] at hu
    have hr : right_click_up g = state_abort_tracking g := by
      simp [right_click_up, hl]
    have hr2 : right_click_up (g.with_dead false) = state_abort_tracking (g.with_dead false) := by
      have : (g.with_dead false).skill.is_locked = true := hl
      simp [right_click_up, this]
    refine ⟨hu, ?_, hr, ?_, ?_, left_click_up_keeps_lock lib g hl⟩
    · rw [hr, hr2]
      conv_lhs => rw [← hg]
      rfl
    · rw [hr]
      rfl
    · intro he ha hm
      rw [hu]
      show (left_click_up lib (g.with_dead false)).skill.is_locked = false
      have h1 : (g.with_dead false).skill = g.skill := rfl
      have h2 : (g.with_dead false).world = g.world := rfl
      have h3 : ∀ (c : Call) (x : Game), (x.call c).skill = x.skill := fun _ _ => rfl
      simp only [left_click_up, h1, h2, h3, hl, he, ha, Bool.not_true, Bool.and_false,
        Bool.false_eq_true, if_false, if_true]
      exact release_unlocks _ _ hm

/-- C19, for the dead sample player with nothing locked: the release of the left
button changes nothing. -/
theorem dead_release_as_living_when_locked_witness :
    left_click_up sample_lib sample_dead_game = sample_dead_game :=
  ((dead_release_as_living_when_locked sample_lib sample_dead_game rfl).1 rfl).1

/-- C19 fails as stated: the player who pressed in jetpack mode, switched to edit
mode and then died is dead with the skill locked, and left_click_up leaves the skill
locked and the jet on. -/
theorem dead_release_keeps_lock_in_edit_mode :
    sample_dead_held_jetpack.play.is_dead = true ∧
    sample_dead_held_jetpack.skill.is_locked = true ∧
    sample_dead_held_jetpack.world.get_edit_mode = true ∧
    (left_click_up sample_lib sample_dead_held_jetpack).skill.is_locked = true ∧
    (left_click_up sample_lib sample_dead_held_jetpack).play.is_jet = true := by
  refine ⟨rfl, rfl, rfl, rfl, rfl⟩

end controls

/-! ### The pitch limit -/

/-- C20: in a non-tracking update, with x and y the averaged offsets of the frame and
dy the dot product of the camera forward vector and the global up vector, the pair
handed to camera.move_look_at is x unchanged and y replaced by 0 exactly when
(dy > 0.975 and y < 0) or (dy < -0.975 and y > 0); move_look_at is called, on the camera
moved to p + (0, 0.5, 0), when x or y exceeds 0.001 in absolute value, and otherwise
the camera is only moved. -/
theorem state.update_pitch_limit (lib : min_lib) (s : state) (f : frame)
    (hf : s._fix_target = false) :
    (∀ dy x y : ℚ, state.limit_pitch dy x y
      = (x, if (dy > 975 / 1000 ∧ y < 0) ∨ (dy < -(975 / 1000) ∧ y > 0) then 0 else y)) ∧
    ((|(s.offsets f).1| > 1 / 1000 ∨ |(s.offsets f).2| > 1 / 1000) →
      (s.update lib f.p f.c f.w f.h)._camera.look_at
        = lib.move_look_at (s.offsets f).1
            (if (s._camera.forward.dot vec3.up > 975 / 1000 ∧ (s.offsets f).2 < 0) ∨
                (s._camera.forward.dot vec3.up < -(975 / 1000) ∧ (s.offsets f).2 > 0)
              then 0 else (s.offsets f).2)
            (s._camera.set_position (f.p.add ⟨0, 1 / 2, 0⟩))) ∧
    (¬ (|(s.offsets f).1| > 1 / 1000 ∨ |(s.offsets f).2| > 1 / 1000) →
      (s.update lib f.p f.c f.w f.h)._camera
        = s._camera.set_position (f.p.add ⟨0, 1 / 2, 0⟩)) := by
  have hlim : ∀ dy x y : ℚ, state.limit_pitch dy x y
      = (x, if (dy > 975 / 1000 ∧ y < 0) ∨ (dy < -(975 / 1000) ∧ y > 0) then 0 else y) := by
    intro dy x y
    unfold state.limit_pitch
    by_cases h1 : dy > 975 / 1000 ∧ y < 0
    · simp [h1]
    · by_cases h2 : dy < -(975 / 1000) ∧ y > 0
      · simp [h1, h2]
      · simp [h1, h2]
  refine ⟨hlim, ?_, ?_⟩
  · intro hmv
    have hmv2 : |state.average (s._x.set (s._frame_count % _frame_average)
          (state.sample f.c.1 f.w))| > 1 / 1000 ∨
        |state.average (s._y.set (s._frame_count % _frame_average)
          (state.sample f.c.2 f.h))| > 1 / 1000 := hmv
    simp only [state.update, hf, state.look, state.store_sample, state.update_model_matrix,
      Bool.false_eq_true, if_false, hmv2, if_true, hlim, camera.force_update,
      camera.do_move_look_at, camera.set_position, state.offsets]
  · intro hmv
    have hmv2 : ¬ (|state.average (s._x.set (s._frame_count % _frame_average)
          (state.sample f.c.1 f.w))| > 1 / 1000 ∨
        |state.average (s._y.set (s._frame_count % _frame_average)
          (state.sample f.c.2 f.h))| > 1 / 1000) := hmv
    simp only [state.update, hf, state.look, state.store_sample, state.update_model_matrix,
      Bool.false_eq_true, if_false, hmv2, camera.set_position]

/-- C20, for the fresh sample state and a cursor right of the centre: the camera
look-at is moved by the averaged offsets, the vertical one not being limited. -/
theorem state.update_pitch_limit_witness :
    (sample_state.update sample_lib sample_frame.p sample_frame.c sample_frame.w
        sample_frame.h)._camera.look_at
      = sample_lib.move_look_at (sample_state.offsets sample_frame).1
          (if (sample_state._camera.forward.dot vec3.up > 975 / 1000 ∧
                (sample_state.offsets sample_frame).2 < 0) ∨
              (sample_state._camera.forward.dot vec3.up < -(975 / 1000) ∧
                (sample_state.offsets sample_frame).2 > 0)
            then 0 else (sample_state.offsets sample_frame).2)
          (sample_state._camera.set_position (sample_frame.p.add ⟨0, 1 / 2, 0⟩)) :=
  (state.update_pitch_limit sample_lib sample_state sample_frame rfl).2.1
    (Or.inl (by
      have h : sample_state.offsets sample_frame = (35 / 4, 0) := by
        norm_num [state.offsets, state.store_sample, state.average, sample_state,
          state.init, state.set_camera, state.sample, _frame_average, List.range_succ,
          sample_frame]
      rw [h]
      show (1 : ℚ) / 1000 < |35 / 4|
      rw [abs_of_pos (by norm_num)]
      norm_num))

/-! ### Per-frame updates -/

theorem float32.round_of_bounds (q : ℚ) (e f : ℤ) (hq : 0 < q)
    (he1 : (2 : ℚ) ^ e ≤ q) (he2 : q < (2 : ℚ) ^ (e + 1)) (hE : -126 ≤ e)
    (hf1 : (f : ℚ) ≤ q / 2 ^ (e - 23)) (hf2 : q / 2 ^ (e - 23) - f < 1 / 2)
    (hm : (f : ℚ) * 2 ^ (e - 23) < 2 ^ 128) :
    float32.round q = .finite (f * 2 ^ (e - 23)) := by
  have hlog : Int.log 2 q = e := by
    have h1 : e ≤ Int.log 2 q := (Int.zpow_le_iff_le_log (by norm_num) hq).1 (by exact_mod_cast he1)
    have h2 : Int.log 2 q < e + 1 := (Int.lt_zpow_iff_log_lt (by norm_num) hq).1 (by exact_mod_cast he2)
    omega
  have hexp : float32.exponent q = e := by
    unfold float32.exponent
    rw [hlog]
    exact max_eq_left hE
  have hfl : ⌊q / 2 ^ (e - 23)⌋ = f := by
    rw [Int.floor_eq_iff]
    constructor
    · exact hf1
    · linarith
  have hne : q ≠ 0 := ne_of_gt hq
  have hnn : ¬ q < 0 := not_lt.mpr (le_of_lt hq)
  have hnm : ¬ ((f : ℚ) * 2 ^ (e - 23) ≥ 2 ^ 128) := not_le.mpr hm
  simp only [float32.round, hne, if_false, abs_of_pos hq, hexp, float32.nearest_even, hfl, hf2,
    if_true, hnm, hnn]

/-- Rounding to the nearest integer leaves an integer as it is. -/
theorem float32.nearest_even_int (n : ℤ) : float32.nearest_even (n : ℚ) = n := by
  unfold float32.nearest_even
  simp

/-- A positive rational m * 2 ^ j with m below 2 ^ 24, j at least -149 and value below
2 ^ 128 is a float: rounding leaves it as it is. -/
theorem float32.round_of_dyadic (m : ℕ) (j : ℤ) (hm0 : 0 < m) (hm : m < 2 ^ 24)
    (hj : -149 ≤ j) (hmax : (m : ℚ) * 2 ^ j < 2 ^ 128) :
    float32.round ((m : ℚ) * 2 ^ j) = .finite ((m : ℚ) * 2 ^ j) := by
  have hm0q : (0 : ℚ) < m := by exact_mod_cast hm0
  have hq : (0 : ℚ) < m * 2 ^ j := by positivity
  have hlog : Int.log 2 ((m : ℚ) * 2 ^ j) < j + 24 := by
    apply (Int.lt_zpow_iff_log_lt (by norm_num) hq).1
    have h1 : (m : ℚ) < 2 ^ (24 : ℤ) := by
      have : (m : ℚ) < ((2 ^ 24 : ℕ) : ℚ) := by exact_mod_cast hm
      norm_num at this ⊢
      exact this
    have h2 : (0 : ℚ) < 2 ^ j := by positivity
    calc (m : ℚ) * 2 ^ j < 2 ^ (24 : ℤ) * 2 ^ j := by
          exact mul_lt_mul_of_pos_right h1 h2
      _ = ((2 : ℕ) : ℚ) ^ (j + 24) := by
          rw [← zpow_add₀ (by norm_num : (2 : ℚ) ≠ 0)]
          norm_num [add_comm]
  have hE : float32.exponent ((m : ℚ) * 2 ^ j) - 23 ≤ j := by
    unfold float32.exponent
    rcases max_cases (Int.log 2 ((m : ℚ) * 2 ^ j)) (-126) with ⟨h, _⟩ | ⟨h, _⟩ <;>
      rw [h] <;> omega
  obtain ⟨d, hd⟩ := Int.eq_ofNat_of_zero_le (sub_nonneg.2 hE)
  have hdiv : (m : ℚ) * 2 ^ j / 2 ^ (float32.exponent ((m : ℚ) * 2 ^ j) - 23)
      = (((m : ℤ) * 2 ^ d : ℤ) : ℚ) := by
    rw [mul_div_assoc, ← zpow_sub₀ (by norm_num : (2 : ℚ) ≠ 0), hd]
    push_cast
    rw [zpow_natCast]
  have hback : (((m : ℤ) * 2 ^ d : ℤ) : ℚ) * 2 ^ (float32.exponent ((m : ℚ) * 2 ^ j) - 23)
      = (m : ℚ) * 2 ^ j := by
    rw [← hdiv]
    field_simp
  unfold float32.round
  rw [if_neg hq.ne']
  simp only [abs_of_pos hq]
  rw [hdiv, float32.nearest_even_int, hback, if_neg (not_le.2 hmax), if_neg (not_lt.2 hq.le)]

theorem float32.five_times_tenth :
    float32.mul (.finite 5) (.finite (13421773 / 134217728)) = .finite (1 / 2) := by
  have h := float32.round_of_bounds (5 * (13421773 / 134217728)) (-1) 8388608
    (by norm_num) (by norm_num) (by norm_num) (by norm_num) (by norm_num) (by norm_num)
    (by norm_num)
  simp only [float32.mul]
  rw [h]
  norm_num

theorem float32.ten_times_tenth :
    float32.mul (.finite 10) (.finite (13421773 / 134217728)) = .finite 1 := by
  have h := float32.round_of_bounds (10 * (13421773 / 134217728)) 0 8388608
    (by norm_num) (by norm_num) (by norm_num) (by norm_num) (by norm_num) (by norm_num)
    (by norm_num)
  simp only [float32.mul]
  rw [h]
  norm_num

theorem float32.tenth_is_float :
    float32.round (13421773 / 134217728) = .finite (13421773 / 134217728) := by
  have h := float32.round_of_bounds (13421773 / 134217728) (-4) 13421773
    (by norm_num) (by norm_num) (by norm_num) (by norm_num) (by norm_num) (by norm_num)
    (by norm_num)
  rw [h]
  norm_num

namespace controls

/-- C21 (as the code has it): update_energy_regen(dt) calls player.add_health with the
float product of 5 and dt exactly when the player is not dead, then skill.add_energy
with the float product of 10 and dt exactly when the skill is not locked, and then
always hands the health percentage of the player to ui.set_health and the energy
percentage of the skills to ui.set_energy; these are its only calls, so nothing is
added in any amount to a dead player or to locked skills. The float product is the
exact product rounded to the nearest float: it is 5 * dt or 10 * dt itself whenever
that number is a positive float, m * 2 ^ j with m below 2 ^ 24, j at least -149 and
value below 2 ^ 128. -/
theorem update_energy_regen_gated (dt : float32) (g : Game) :
    (update_energy_regen dt g).calls_since g
      = (if g.play.is_dead = false then
          [.player_add_health (float32.mul (.finite 5) dt)] else []) ++
        (if g.skill.is_locked = false then
          [.skill_add_energy (float32.mul (.finite 10) dt)] else []) ++
        [.ui_set_health g.play.get_health_percent,
         .ui_set_energy g.skill.get_energy_percent] ∧
    (Call.player_add_health (float32.mul (.finite 5) dt)
        ∈ (update_energy_regen dt g).calls_since g ↔ g.play.is_dead = false) ∧
    (Call.skill_add_energy (float32.mul (.finite 10) dt)
        ∈ (update_energy_regen dt g).calls_since g ↔ g.skill.is_locked = false) ∧
    (g.play.is_dead = true →
      ∀ e, Call.player_add_health e ∉ (update_energy_regen dt g).calls_since g) ∧
    (g.skill.is_locked = true →
      ∀ e, Call.skill_add_energy e ∉ (update_energy_regen dt g).calls_since g) ∧
    (∀ (q : ℚ) (m : ℕ) (j : ℤ), 0 < m → m < 2 ^ 24 → -149 ≤ j →
      (m : ℚ) * 2 ^ j < 2 ^ 128 → 5 * q = m * 2 ^ j →
      float32.mul (.finite 5) (.finite q) = .finite (5 * q)) ∧
    (∀ (q : ℚ) (m : ℕ) (j : ℤ), 0 < m → m < 2 ^ 24 → -149 ≤ j →
      (m : ℚ) * 2 ^ j < 2 ^ 128 → 10 * q = m * 2 ^ j →
      float32.mul (.finite 10) (.finite q) = .finite (10 * q)) := by
  have exact5 : ∀ (q : ℚ) (m : ℕ) (j : ℤ), 0 < m → m < 2 ^ 24 → -149 ≤ j →
      (m : ℚ) * 2 ^ j < 2 ^ 128 → 5 * q = m * 2 ^ j →
      float32.mul (.finite 5) (.finite q) = .finite (5 * q) := by
    intro q m j h0 h1 h2 h3 h
    show float32.round (5 * q) = .finite (5 * q)
    rw [h]
    exact float32.round_of_dyadic m j h0 h1 h2 h3
  have exact10 : ∀ (q : ℚ) (m : ℕ) (j : ℤ), 0 < m → m < 2 ^ 24 → -149 ≤ j →
      (m : ℚ) * 2 ^ j < 2 ^ 128 → 10 * q = m * 2 ^ j →
      float32.mul (.finite 10) (.finite q) = .finite (10 * q) := by
    intro q m j h0 h1 h2 h3 h
    show float32.round (10 * q) = .finite (10 * q)
    rw [h]
    exact float32.round_of_dyadic m j h0 h1 h2 h3
  refine ⟨?_, ?_, ?_, ?_, ?_, exact5, exact10⟩ <;>
    cases hd : g.play.is_dead <;> cases hl : g.skill.is_locked <;>
    simp [update_energy_regen, Game.calls_since, Game.call, _health_regen, _energy_regen,
      hd, hl]

/-- C21, for the sample game (living player, nothing locked) and half a second: the
float product of 10 and 0.5 is 10 * 0.5 exactly, and it is added to the energy. -/
theorem update_energy_regen_gated_witness :
    float32.mul (.finite 10) (.finite (1 / 2)) = .finite (10 * (1 / 2)) ∧
    Call.skill_add_energy (float32.mul (.finite 10) (.finite (1 / 2))) ∈
      (update_energy_regen (.finite (1 / 2)) sample_game).calls_since sample_game :=
  ⟨(update_energy_regen_gated (.finite (1 / 2)) sample_game).2.2.2.2.2.2 (1 / 2) 5 0
      (by norm_num) (by norm_num) (by norm_num) (by norm_num) (by norm_num),
    (update_energy_regen_gated (.finite (1 / 2)) sample_game).2.2.1.2 rfl⟩

/-- C21 fails as stated: for the float dt nearest to 0.1, which is
13421773 / 134217728, update_energy_regen on the sample game adds 0.5 health and 1
energy, and neither is 5 * dt or 10 * dt. -/
theorem update_energy_regen_rounds_at_tenth :
    float32.round (13421773 / 134217728) = .finite (13421773 / 134217728) ∧
    (update_energy_regen (.finite (13421773 / 134217728)) sample_game).calls_since
        sample_game
      = [.player_add_health (.finite (1 / 2)), .skill_add_energy (.finite 1),
         .ui_set_health 1, .ui_set_energy (1 / 2)] ∧
    (1 / 2 : ℚ) ≠ 5 * (13421773 / 134217728) ∧
    (1 : ℚ) ≠ 10 * (13421773 / 134217728) := by
  refine ⟨float32.tenth_is_float, ?_, by norm_num, by norm_num⟩
  have h5 := float32.five_times_tenth
  have h10 := float32.ten_times_tenth
  simp only [update_energy_regen, _health_regen, _energy_regen, Game.calls_since, Game.call]
  rw [h5, h10]
  simp [sample_game, sample_skills]

end controls

namespace controls

/-- C22 (as the code has it): with jetpack the one current mode, the press of a living
player with the gun active always switches the jet on, plays the jet sound and locks;
update_skills stops the jet sound and calls unlock_jetpack exactly when the skill is
in jetpack mode, locked and the jet of the player is not active, and otherwise leaves
the lock as it is; left_click_up with the skill locked in jetpack mode switches the
jet off, stops the sound and unlocks when edit mode is off and the gun is active,
whereas in edit mode or with the gun inactive it leaves both the jet and the lock as
they are. -/
theorem jetpack_hold_and_release (lib : min_lib) (g : Game) :
    (g.play.is_dead = false → g.skill.is_gun_active = true →
      g.skill.modes = (false, false, false, true, false) →
      (left_click_down lib g).calls_since g
        = [.player_set_jet true, .sound_play_jet, .skill_lock] ∧
      (left_click_down lib g).play.is_jet = true ∧
      (left_click_down lib g).skill.is_locked = true) ∧
    ((update_skills g).calls_since g
      = (if g.skill.is_jetpack_mode = true ∧ g.skill.is_locked = true ∧
            g.play.is_jet = false then
          [.sound_stop_jet, .skill_unlock_jetpack] else []) ++
        (if g.skill.activate_charge = true then [.character_set_animation_charge]
          else [])) ∧
    (Call.skill_unlock_jetpack ∈ (update_skills g).calls_since g ↔
      (g.skill.is_jetpack_mode = true ∧ g.skill.is_locked = true ∧
        g.play.is_jet = false)) ∧
    (Call.sound_stop_jet ∈ (update_skills g).calls_since g ↔
      (g.skill.is_jetpack_mode = true ∧ g.skill.is_locked = true ∧
        g.play.is_jet = false)) ∧
    ((update_skills g).skill.is_locked
      = (if g.skill.is_jetpack_mode = true ∧ g.skill.is_locked = true ∧
            g.play.is_jet = false then false else g.skill.is_locked)) ∧
    (g.skill.is_locked = true → g.skill.modes = (false, false, false, true, false) →
      (g.skill.is_beam_charged = true → g.skill.is_beam_mode = true) →
      g.world.get_edit_mode = false → g.skill.is_gun_active = true →
      (left_click_up lib g).calls_since g
        = [.character_abort_animation_shoot, .player_set_jet false, .sound_stop_jet,
           .skill_unlock_jetpack] ∧
      (left_click_up lib g).play.is_jet = false ∧
      (left_click_up lib g).skill.is_locked = false) ∧
    (g.skill.is_locked = true →
      (g.world.get_edit_mode = true ∨ g.skill.is_gun_active = false) →
      (left_click_up lib g).play.is_jet = g.play.is_jet ∧
      (left_click_up lib g).skill.is_locked = true) := by
  refine ⟨?_, ?_, ?_, ?_, ?_, ?_, ?_⟩
  · intro hd ha hm
    simp only [skills.modes, Prod.mk.injEq] at hm
    obtain ⟨h1, h2, h3, h4, h5⟩ := hm
    simp [left_click_down, Game.calls_since, skill_lock, Game.call, player_set_jet, *]
  · cases hj : g.skill.is_jetpack_mode <;> cases hl : g.skill.is_locked <;>
      cases hp : g.play.is_jet <;> cases hc : g.skill.activate_charge <;>
      simp [update_skills, Game.calls_since, skill_unlock_jetpack, skill_unlock, Game.call,
        hj, hl, hp, hc]
  · cases hj : g.skill.is_jetpack_mode <;> cases hl : g.skill.is_locked <;>
      cases hp : g.play.is_jet <;> cases hc : g.skill.activate_charge <;>
      simp [update_skills, Game.calls_since, skill_unlock_jetpack, skill_unlock, Game.call,
        hj, hl, hp, hc]
  · cases hj : g.skill.is_jetpack_mode <;> cases hl : g.skill.is_locked <;>
      cases hp : g.play.is_jet <;> cases hc : g.skill.activate_charge <;>
      simp [update_skills, Game.calls_since, skill_unlock_jetpack, skill_unlock, Game.call,
        hj, hl, hp, hc]
  · cases hj : g.skill.is_jetpack_mode <;> cases hl : g.skill.is_locked <;>
      cases hp : g.play.is_jet <;> cases hc : g.skill.activate_charge <;>
      simp [update_skills, skill_unlock_jetpack, skill_unlock, Game.call, hj, hl, hp, hc]
  · intro hl hm hb he ha
    simp only [skills.modes, Prod.mk.injEq] at hm
    obtain ⟨h1, h2, h3, h4, h5⟩ := hm
    have hc : g.skill.is_beam_charged = false := by
      cases hc : g.skill.is_beam_charged
      · rfl
      · rw [hb hc] at h1; exact absurd h1 (by decide)
    simp [left_click_up, release, release_jetpack, he, ha, hl, hc, h1, h2, h3, h4, Game.call,
      Game.calls_since, skill_unlock_jetpack, skill_unlock, player_set_jet]
  · intro hl hor
    rcases hor with he | ha
    · cases hw : g.skill.will_consume 10 <;>
        simp [left_click_up, place_block, skill_will_consume, _block_cost, hl, he, hw,
          Game.call]
    · cases he : g.world.get_edit_mode
      · simp [left_click_up, hl, he, ha]
      · cases hw : g.skill.will_consume 10 <;>
          simp [left_click_up, place_block, skill_will_consume, _block_cost, hl, he, hw,
            Game.call]

/-- C22, for the sample game in jetpack mode: the press switches the jet on and
locks. -/
theorem jetpack_hold_and_release_witness :
    (left_click_down sample_lib sample_jetpack_game).calls_since sample_jetpack_game
      = [.player_set_jet true, .sound_play_jet, .skill_lock] :=
  ((jetpack_hold_and_release sample_lib sample_jetpack_game).1 rfl rfl rfl).1

/-- C22 fails as stated: after the left button went down in jetpack mode and the Q
key switched to edit mode, the skill is locked in jetpack mode with the jet on, and
left_click_up neither switches the jet off nor unlocks. -/
theorem left_click_up_keeps_jet_in_edit_mode :
    sample_held_jetpack.skill.is_locked = true ∧
    sample_held_jetpack.skill.modes = (false, false, false, true, false) ∧
    sample_held_jetpack.play.is_jet = true ∧
    sample_held_jetpack.world.get_edit_mode = true ∧
    (left_click_up sample_lib sample_held_jetpack).play.is_jet = true ∧
    (left_click_up sample_lib sample_held_jetpack).skill.is_locked = true := by
  refine ⟨rfl, rfl, rfl, rfl, rfl, rfl⟩

end controls

namespace controls

theorem toggle_pause_fields (g : Game) :
    (toggle_pause g).state._pause = !g.state._pause ∧
    (toggle_pause g).window.cursor_displayed = !g.state._pause ∧
    (toggle_pause g).draw_menu = !g.state._pause ∧
    (toggle_pause g).game_mode
      = (if g.state._pause = true then "MODE: PLAY" else "MODE: PAUSE") ∧
    (toggle_pause g).window.cursor = (g.window.width / 2, g.window.height / 2) := by
  cases hp : g.state._pause <;>
    simp [toggle_pause, state_toggle_game_pause, state.toggle_pause, state_set_game_mode,
      window_display_cursor, ui_set_draw_menu, window_set_cursor, Game.call, hp]

theorem pause_view_call (c : Call) (g : Game) : pause_view (g.call c) = pause_view g := rfl

theorem pause_view_lock (g : Game) : pause_view (skill_lock g) = pause_view g := rfl

theorem pause_view_unlock (c : Call) (g : Game) :
    pause_view (skill_unlock c g) = pause_view g := rfl

theorem pause_view_set_jet (b : Bool) (g : Game) :
    pause_view (player_set_jet b g) = pause_view g := rfl

theorem pause_view_console (c : console_string) (g : Game) :
    pause_view (ui_set_console_string c g) = pause_view g := rfl

theorem pause_view_respawn (b : Bool) (g : Game) :
    pause_view (state_set_respawn b g) = pause_view g := rfl

theorem pause_view_track (t : vec3) (g : Game) :
    pause_view (state_track_target t g) = pause_view g := rfl

theorem pause_view_abort (g : Game) : pause_view (state_abort_tracking g) = pause_view g := rfl

theorem key_down_pause_view (index : Nat) (f : Option (Game → Game)) (g : Game)
    (hf : ∀ act, f = some act → ∀ x, pause_view (act x) = pause_view x) :
    pause_view (key_down index f g) = pause_view g := by
  unfold key_down
  split_ifs
  · cases f with
    | none => exact (pause_view_call _ _).trans (pause_view_call _ _)
    | some act =>
      dsimp only
      rw [hf act rfl]
      exact (pause_view_call _ _).trans (pause_view_call _ _)
  · exact pause_view_call _ _
  · exact pause_view_call _ _

theorem number_key_down_pause_view (n : Nat) (g : Game) :
    pause_view (number_key_down n g) = pause_view g := by
  have h1 : ∀ x, pause_view (key1_action x) = pause_view x := fun _ => rfl
  have h2 : ∀ x, pause_view (key2_action x) = pause_view x := fun _ => rfl
  have h3 : ∀ x, pause_view (key3_action x) = pause_view x := fun _ => rfl
  have h4 : ∀ x, pause_view (key4_action x) = pause_view x := fun _ => rfl
  have h5 : ∀ x, pause_view (key5_action x) = pause_view x := fun _ => rfl
  unfold number_key_down
  split
  · exact key_down_pause_view _ _ _ (fun act ha => by cases ha; exact h1)
  · exact key_down_pause_view _ _ _ (fun act ha => by cases ha; exact h2)
  · exact key_down_pause_view _ _ _ (fun act ha => by cases ha; exact h3)
  · exact key_down_pause_view _ _ _ (fun act ha => by cases ha; exact h4)
  · exact key_down_pause_view _ _ _ (fun act ha => by cases ha; exact h5)
  · exact key_down_pause_view _ _ _ (fun act ha => by cases ha)
  · exact key_down_pause_view _ _ _ (fun act ha => by cases ha)
  · exact key_down_pause_view _ _ _ (fun act ha => by cases ha)
  · rfl

theorem fire_grapple_pause_view (lib : min_lib) (g : Game) :
    pause_view (fire_grapple lib g) = pause_view g := by
  unfold fire_grapple
  dsimp only
  split <;>
    simp only [world_hook_set, pause_view_call, pause_view_lock]

theorem left_click_down_pause_view (lib : min_lib) (g : Game) :
    pause_view (left_click_down lib g) = pause_view g := by
  simp only [left_click_down, apply_ite pause_view, pause_view_call, pause_view_lock,
    pause_view_set_jet, pause_view_respawn, fire_grapple_pause_view, ite_self]

theorem release_pause_view (r : ray) (g : Game) :
    pause_view (release r g) = pause_view g := by
  simp only [release, release_charged_beam, release_beam, release_missile, release_grapple,
    release_jetpack, release_scan, skill_unlock_beam, skill_unlock_grapple,
    skill_unlock_missile, skill_unlock_jetpack, skill_unlock_scan, skill_will_consume,
    world_explode_block_radius, world_explode_block, world_launch_missile, world_scan_block,
    apply_ite pause_view, pause_view_call, pause_view_unlock, pause_view_set_jet,
    pause_view_console, ite_self]

theorem left_click_up_pause_view (lib : min_lib) (g : Game) :
    pause_view (left_click_up lib g) = pause_view g := by
  simp only [left_click_up, place_block, skill_will_consume, apply_ite pause_view,
    pause_view_call, release_pause_view, ite_self]

theorem right_click_down_pause_view (lib : min_lib) (g : Game) :
    pause_view (right_click_down lib g) = pause_view g := by
  unfold right_click_down
  dsimp only
  split_ifs
  · exact pause_view_respawn _ _
  · split <;> simp only [world_target_block, pause_view_call, pause_view_track]

theorem right_click_up_pause_view (g : Game) :
    pause_view (right_click_up g) = pause_view g := by
  simp only [right_click_up, apply_ite pause_view, pause_view_abort, ite_self]

theorem update_pause_view (dt : float32) (g : Game) :
    pause_view (update dt g) = pause_view g := by
  simp only [update, update_skills, update_ui, update_energy_regen, skill_unlock_jetpack,
    apply_ite pause_view, pause_view_call, pause_view_unlock, ite_self]

theorem callback_pause_view (lib : min_lib) (h : handler) (a b : Nat) (g : Game)
    (hne : h ≠ .toggle_pause) :
    pause_view (callback lib h a b g) = pause_view g := by
  cases h
  case toggle_pause => exact absurd rfl hne
  case key1_down => exact number_key_down_pause_view 1 g
  case key2_down => exact number_key_down_pause_view 2 g
  case key3_down => exact number_key_down_pause_view 3 g
  case key4_down => exact number_key_down_pause_view 4 g
  case key5_down => exact number_key_down_pause_view 5 g
  case key6_down => exact number_key_down_pause_view 6 g
  case key7_down => exact number_key_down_pause_view 7 g
  case key8_down => exact number_key_down_pause_view 8 g
  case left_click_down => exact left_click_down_pause_view lib g
  case left_click_up => exact left_click_up_pause_view lib g
  case right_click_down => exact right_click_down_pause_view lib g
  case right_click_up => exact right_click_up_pause_view g
  all_goals (unfold pause_view; rfl)

theorem toggle_pause_gives_in_step (g : Game) : pause_in_step (toggle_pause g) := by
  obtain ⟨a1, a2, a3, a4, _⟩ := toggle_pause_fields g
  refine ⟨by rw [a1, a2], by rw [a1, a3], ?_⟩
  rw [a1, a4]
  cases g.state._pause <;> rfl

theorem step_keeps_pause_in_step (lib : min_lib) (e : event) (g : Game)
    (h : pause_in_step g) : pause_in_step (step lib g e) := by
  have key : ∀ x : Game, pause_view x = pause_view g → pause_in_step x := by
    intro x hx
    simp only [pause_view, Prod.mk.injEq] at hx
    obtain ⟨h1, h2, h3, h4⟩ := hx
    unfold pause_in_step
    rw [h1, h2, h3, h4]
    exact h
  cases e with
  | tick dt => exact key _ (update_pause_view dt g)
  | fire hd a b =>
    by_cases hq : hd = .toggle_pause
    · subst hq
      exact toggle_pause_gives_in_step g
    · exact key _ (callback_pause_view lib hd a b g hq)

theorem run_keeps_pause_in_step (lib : min_lib) (es : List event) (g : Game)
    (h : pause_in_step g) : pause_in_step (run lib es g) := by
  induction es generalizing g with
  | nil => exact h
  | cons e es ih => exact ih (step lib g e) (step_keeps_pause_in_step lib e g h)

theorem toggle_pause_twice (g : Game) (h : pause_in_step g) :
    (toggle_pause (toggle_pause g)).state._pause = g.state._pause ∧
    (toggle_pause (toggle_pause g)).window.cursor_displayed = g.window.cursor_displayed ∧
    (toggle_pause (toggle_pause g)).game_mode = g.game_mode ∧
    (toggle_pause (toggle_pause g)).draw_menu = g.draw_menu := by
  obtain ⟨a1, _, _, _, _⟩ := toggle_pause_fields g
  obtain ⟨b1, b2, b3, b4, _⟩ := toggle_pause_fields (toggle_pause g)
  obtain ⟨h1, h2, h3⟩ := h
  rw [a1] at b1 b2 b3 b4
  simp only [Bool.not_not] at b1 b2 b3
  refine ⟨b1, by rw [b2, h1], ?_, by rw [b3, h2]⟩
  rw [b4, h3]
  cases g.state._pause <;> rfl

/-- C23: after toggle_pause, with m the negation of the old pause flag, the pause flag
is m, the cursor is displayed iff m, the menu is drawn iff m, the caption is
"MODE: PAUSE" if m and "MODE: PLAY" otherwise, and the cursor is at
(width / 2, height / 2) with integer division. In every state reached after a call of
toggle_pause, whatever callbacks and updates followed it, and in every state reached
from a game in which cursor, menu and caption are in step with the pause flag, two
calls in a row restore the pause flag, the cursor visibility, the caption and the menu
flag. -/
theorem toggle_pause_in_step (lib : min_lib) (g : Game) :
    ((toggle_pause g).state._pause = !g.state._pause ∧
      (toggle_pause g).window.cursor_displayed = !g.state._pause ∧
      (toggle_pause g).draw_menu = !g.state._pause ∧
      (toggle_pause g).game_mode
        = (if g.state._pause = true then "MODE: PLAY" else "MODE: PAUSE") ∧
      (toggle_pause g).window.cursor = (g.window.width / 2, g.window.height / 2)) ∧
    (∀ es : List event,
      (toggle_pause (toggle_pause (run lib es (toggle_pause g)))).state._pause
        = (run lib es (toggle_pause g)).state._pause ∧
      (toggle_pause (toggle_pause (run lib es (toggle_pause g)))).window.cursor_displayed
        = (run lib es (toggle_pause g)).window.cursor_displayed ∧
      (toggle_pause (toggle_pause (run lib es (toggle_pause g)))).game_mode
        = (run lib es (toggle_pause g)).game_mode ∧
      (toggle_pause (toggle_pause (run lib es (toggle_pause g)))).draw_menu
        = (run lib es (toggle_pause g)).draw_menu) ∧
    (pause_in_step g → ∀ es : List event,
      (toggle_pause (toggle_pause (run lib es g))).state._pause
        = (run lib es g).state._pause ∧
      (toggle_pause (toggle_pause (run lib es g))).window.cursor_displayed
        = (run lib es g).window.cursor_displayed ∧
      (toggle_pause (toggle_pause (run lib es g))).game_mode = (run lib es g).game_mode ∧
      (toggle_pause (toggle_pause (run lib es g))).draw_menu = (run lib es g).draw_menu) :=
  ⟨toggle_pause_fields g,
    fun es => toggle_pause_twice _
      (run_keeps_pause_in_step lib es _ (toggle_pause_gives_in_step g)),
    fun h es => toggle_pause_twice _ (run_keeps_pause_in_step lib es _ h)⟩

/-- C23, for the sample game (not paused, cursor hidden, menu off, caption
"MODE: PLAY"): two calls of toggle_pause restore all four. -/
theorem toggle_pause_in_step_witness :
    (toggle_pause (toggle_pause sample_game)).state._pause = sample_game.state._pause ∧
    (toggle_pause (toggle_pause sample_game)).window.cursor_displayed
      = sample_game.window.cursor_displayed ∧
    (toggle_pause (toggle_pause sample_game)).game_mode = sample_game.game_mode ∧
    (toggle_pause (toggle_pause sample_game)).draw_menu = sample_game.draw_menu :=
  (toggle_pause_in_step sample_lib sample_game).2.2 ⟨rfl, rfl, rfl⟩ []

end controls

end game
